import Mathlib

/-!
Verification of the radial and vertical build calculator of the PROCESS
systems code (src/process/build.py) against its specification.

The Python source computes with IEEE double-precision floats; the shallow
embedding below idealises that arithmetic over the real numbers.  Global
module state (physics_variables, build_variables, tfcoil_variables, ...)
is collected into a single flat record BuildState, mutated-in-place writes
become functional record updates, and error_handling.report_error codes
are accumulated in an errors list.  Sequential blocks of the source are
translated as small state-transformer steps composed in source order, so
that each step can be diffed line by line against the code it embeds.
-/

noncomputable section

/-- The flat device-parameter record: the union of the global-module fields
of physics_variables, build_variables, buildings_variables,
divertor_variables, tfcoil_variables, fwbs_variables, pfcoil_variables and
numerics that build.py reads or writes.  Real-valued engineering fields are
reals; integer switches are integers; the iteration-variable list ixc and
the fault-code sink errors are lists. -/
structure BuildState where
  -- physics_variables
  rmajor : ℝ
  rminor : ℝ
  kappa : ℝ
  triang : ℝ
  itart : ℤ
  i_single_null : ℤ
  idivrt : ℤ
  -- fwbs_variables
  blktmodel : ℤ
  -- numerics
  ixc : List ℤ
  nvar : ℕ
  -- tfcoil_variables
  n_tf : ℝ
  i_tf_sup : ℤ
  i_tf_wp_geom : ℤ
  i_tf_shape : ℤ
  i_tf_bucking : ℤ
  dr_tf_wp : ℝ
  thkcas : ℝ
  casthi : ℝ
  casths : ℝ
  casths_fraction : ℝ
  tfc_sidewall_is_fraction : Bool
  tinstf : ℝ
  tfinsgap : ℝ
  ripmax : ℝ
  ripple : ℝ
  drtop : ℝ
  -- Build.ripflag (instance attribute of the Build class)
  ripflag : ℤ
  -- build_variables: inboard radial stack
  dr_bore : ℝ
  dr_cs : ℝ
  dr_cs_precomp : ℝ
  dr_cs_tf_gap : ℝ
  iprecomp : ℤ
  fseppc : ℝ
  fcspc : ℝ
  sigallpc : ℝ
  tf_in_cs : ℤ
  dr_tf_inboard : ℝ
  r_tf_inboard_in : ℝ
  r_tf_inboard_mid : ℝ
  r_tf_inboard_out : ℝ
  i_r_cp_top : ℤ
  r_cp_top : ℝ
  f_r_cp : ℝ
  dr_tf_shld_gap : ℝ
  dr_shld_thermal_inboard : ℝ
  dr_shld_thermal_outboard : ℝ
  dr_shld_vv_gap_inboard : ℝ
  dr_vv_inboard : ℝ
  dr_vv_outboard : ℝ
  dr_shld_inboard : ℝ
  dr_shld_outboard : ℝ
  dr_shld_blkt_gap : ℝ
  dr_blkt_inboard : ℝ
  dr_blkt_outboard : ℝ
  blbuith : ℝ
  blbmith : ℝ
  blbpith : ℝ
  blbuoth : ℝ
  blbmoth : ℝ
  blbpoth : ℝ
  dr_fw_inboard : ℝ
  dr_fw_outboard : ℝ
  dr_fw_plasma_gap_inboard : ℝ
  dr_fw_plasma_gap_outboard : ℝ
  r_vv_inboard_out : ℝ
  r_sh_inboard_in : ℝ
  r_sh_inboard_out : ℝ
  rbld : ℝ
  rsldi : ℝ
  rsldo : ℝ
  tfootfi : ℝ
  dr_tf_outboard : ℝ
  gapomin : ℝ
  gapsto : ℝ
  r_tf_outboard_mid : ℝ
  dr_tf_inner_bore : ℝ
  -- build_variables: vertical stack
  shldtth : ℝ
  shldlth : ℝ
  blnktth : ℝ
  vgaptop : ℝ
  vgap_xpoint_divertor : ℝ
  vgap_vv_thermalshield : ℝ
  d_vv_top : ℝ
  d_vv_bot : ℝ
  thshield_vb : ℝ
  dh_tf_inner_bore : ℝ
  tfoffset : ℝ
  hmax : ℝ
  hpfu : ℝ
  hpfdif : ℝ
  plsepi : ℝ
  plsepo : ℝ
  plleni : ℝ
  plleno : ℝ
  rspo : ℝ
  -- divertor_variables
  divfix : ℝ
  betai : ℝ
  betao : ℝ
  -- buildings_variables
  dz_tf_cryostat : ℝ
  -- error_handling: codes passed to report_error, in call order
  errors : List ℕ

/-- Result record of Build.ripple_amplitude (build.py lines 1483-1628):
the ripple percentage at the outboard plasma edge, the minimum outboard
leg mid-radius that meets the allowed ripple, and the applicability flag. -/
structure RippleResult where
  ripple : ℝ
  r_tf_outboard_midmin : ℝ
  flag : ℤ

/-- Maximum toroidal half-thickness of the winding pack, t_wp_max
(build.py lines 1511-1554).  Superconducting magnets pick the effective
winding-pack radius by i_tf_wp_geom (rectangular, double rectangle,
trapezoidal; the source's if/elif chain has no else branch, so the
trapezoidal formula is used as the final case here) and support a
sidewall-thickness-as-fraction variant; resistive magnets use the full
inboard stack radius. -/
def ripple_t_wp_max (s : BuildState) : ℝ :=
  if s.i_tf_sup = 1 then
    let r_wp_min := s.r_tf_inboard_in + s.thkcas
    let r_wp_max :=
      if s.i_tf_wp_geom = 0 then r_wp_min
      else if s.i_tf_wp_geom = 1 then r_wp_min + 0.5 * s.dr_tf_wp
      else r_wp_min + s.dr_tf_wp
    if s.tfc_sidewall_is_fraction then
      2.0 * ((r_wp_max - s.casths_fraction * r_wp_min) * Real.tan (Real.pi / s.n_tf)
        - s.tinstf - s.tfinsgap)
    else
      2.0 * (r_wp_max * Real.tan (Real.pi / s.n_tf) - s.casths - s.tinstf - s.tfinsgap)
  else
    2.0 * (s.r_tf_inboard_in + s.thkcas + s.dr_tf_wp) * Real.tan (Real.pi / s.n_tf)

/-- Dimensionless winding-pack ratio x = t_wp_max * n_tf / rmajor
(build.py line 1570). -/
def ripple_x (s : BuildState) : ℝ :=
  ripple_t_wp_max s * s.n_tf / s.rmajor

/-- Ripple fit coefficient c1 = 0.875 - 0.0557 x (build.py line 1573). -/
def ripple_c1 (s : BuildState) : ℝ :=
  0.875 - 0.0557 * ripple_x s

/-- Ripple fit coefficient c2 = 1.617 + 0.0832 x (build.py line 1574). -/
def ripple_c2 (s : BuildState) : ℝ :=
  1.617 + 0.0832 * ripple_x s

/-- Build.ripple_amplitude (build.py lines 1483-1628).  For the
picture-frame coil shape (i_tf_shape = 2) the ripple and the minimum
radius follow the closed analytical power law with flag 0.  Otherwise the
conventional fitted model is used: the inversion base 0.01*ripmax/c1 is
clamped to 1e-6 when it is not greater than 1e-6 (the source's
assert/except kludge), and the guard against an infinite
r_tf_outboard_midmin (assert r_tf_outboard_midmin < np.inf) is modelled
over the reals as the zero-denominator case of the division, the real
shadow of the float overflow, substituting 3*(rmajor+rminor).  The
applicability flag is written sequentially (last violated check wins):
1 for x outside the fit range, then 2 for coil count outside 16..20,
then 3 for edge ratio outside 0.70..0.80. -/
def ripple_amplitude (s : BuildState) (ripmax r_tf_outboard_mid : ℝ) : RippleResult :=
  if s.i_tf_shape = 2 then
    { ripple := 100.0 * ((s.rmajor + s.rminor) / r_tf_outboard_mid) ^ s.n_tf
      r_tf_outboard_midmin :=
        (s.rmajor + s.rminor) / (0.01 * ripmax) ^ (1.0 / s.n_tf)
      flag := 0 }
  else
    let x := ripple_x s
    let c1 := ripple_c1 s
    let c2 := ripple_c2 s
    let base0 := 0.01 * ripmax / c1
    let base := if base0 ≤ 1e-6 then 1e-6 else base0
    let denom := base ^ (1.0 / (s.n_tf - c2))
    let midmin :=
      if denom = 0 then (s.rmajor + s.rminor) * 3
      else (s.rmajor + s.rminor) / denom
    let flag1 : ℤ := if x < 0.737 ∨ x > 2.95 then 1 else 0
    let flag2 : ℤ := if s.n_tf < 16 ∨ s.n_tf > 20 then 2 else flag1
    let flag3 : ℤ :=
      if (s.rmajor + s.rminor) / r_tf_outboard_mid < 0.7 ∨
         (s.rmajor + s.rminor) / r_tf_outboard_mid > 0.8 then 3 else flag2
    { ripple := 100.0 * c1 * ((s.rmajor + s.rminor) / r_tf_outboard_mid) ^ (s.n_tf - c2)
      r_tf_outboard_midmin := midmin
      flag := flag3 }

/-- Detailed-blanket resolution (build.py lines 1650-1663): with
blktmodel > 0 the inboard/outboard blanket thicknesses are rebuilt from
their sublayer thicknesses and the top shield thickness is averaged from
the inboard and outboard shield thicknesses. -/
def blanket_resolve_step (s : BuildState) : BuildState :=
  { s with
    dr_blkt_inboard :=
      if s.blktmodel > 0 then s.blbuith + s.blbmith + s.blbpith
      else s.dr_blkt_inboard
    dr_blkt_outboard :=
      if s.blktmodel > 0 then s.blbuoth + s.blbmoth + s.blbpoth
      else s.dr_blkt_outboard
    shldtth :=
      if s.blktmodel > 0 then 0.5 * (s.dr_shld_inboard + s.dr_shld_outboard)
      else s.shldtth }

/-- Top/bottom blanket thickness blnktth (build.py lines 1666-1668). -/
def blnktth_step (s : BuildState) : BuildState :=
  { s with blnktth := 0.5 * (s.dr_blkt_inboard + s.dr_blkt_outboard) }

/-- Top scrape-off floor (build.py lines 1670-1679): in the single-null
case vgaptop is raised to at least the mean of the inboard and outboard
first-wall-to-plasma gaps. -/
def vgaptop_floor_step (s : BuildState) : BuildState :=
  { s with
    vgaptop :=
      if s.i_single_null = 1 then
        max (0.5 * (s.dr_fw_plasma_gap_inboard + s.dr_fw_plasma_gap_outboard))
          s.vgaptop
      else s.vgaptop }

/-- Central-solenoid precompression thickness (build.py lines 1681-1695):
force-balance formula when iprecomp = 1, zero otherwise. -/
def precomp_step (s : BuildState) : BuildState :=
  { s with
    dr_cs_precomp :=
      if s.iprecomp = 1 then
        s.fseppc / (2.0 * Real.pi * s.fcspc * s.sigallpc
          * (s.dr_bore + s.dr_bore + s.dr_cs))
      else 0.0 }

/-- TF inboard leg inner radius (build.py lines 1697-1710): inside the
bore when tf_in_cs = 1, outside the solenoid stack otherwise. -/
def r_tf_inboard_in_step (s : BuildState) : BuildState :=
  { s with
    r_tf_inboard_in :=
      if s.tf_in_cs = 1 then s.dr_bore - s.dr_tf_inboard - s.dr_cs_tf_gap
      else s.dr_bore + s.dr_cs + s.dr_cs_precomp + s.dr_cs_tf_gap }

/-- True when dr_tf_wp is an iteration variable: variable number 140
occurs among the first nvar entries of ixc (build.py line 1714). -/
def dr_tf_wp_is_iter (s : BuildState) : Prop :=
  (140 : ℤ) ∈ s.ixc.take s.nvar

instance (s : BuildState) : Decidable (dr_tf_wp_is_iter s) := by
  unfold dr_tf_wp_is_iter; infer_instance

/-- Inboard TF thickness from the winding pack when dr_tf_wp is an
iteration variable (build.py lines 1714-1732): diagonal wedging formula
for superconducting coils, plain stack for resistive coils. -/
def dr_tf_inboard_step (s : BuildState) : BuildState :=
  { s with
    dr_tf_inboard :=
      if dr_tf_wp_is_iter s then
        if s.i_tf_sup = 1 then
          (s.r_tf_inboard_in + s.dr_tf_wp + s.casthi + s.thkcas)
            / Real.cos (Real.pi / s.n_tf) - s.r_tf_inboard_in
        else s.dr_tf_wp + s.casthi + s.thkcas
      else s.dr_tf_inboard }

/-- Inboard TF mid and plasma-facing radii (build.py lines 1734-1742). -/
def r_tf_inboard_out_step (s : BuildState) : BuildState :=
  let s1 := { s with r_tf_inboard_mid := s.r_tf_inboard_in + 0.5 * s.dr_tf_inboard }
  { s1 with r_tf_inboard_out := s1.r_tf_inboard_in + s1.dr_tf_inboard }

/-- Winding-pack thickness from the fixed coil thickness when dr_tf_wp is
not an iteration variable (build.py lines 1744-1763): the inverse of the
wedging relation for superconducting coils, plain subtraction for
resistive coils. -/
def dr_tf_wp_step (s : BuildState) : BuildState :=
  { s with
    dr_tf_wp :=
      if ¬ dr_tf_wp_is_iter s then
        if s.i_tf_sup = 1 then
          Real.cos (Real.pi / s.n_tf) * s.r_tf_inboard_out
            - s.r_tf_inboard_in - s.casthi - s.thkcas
        else s.dr_tf_inboard - s.casthi - s.thkcas
      else s.dr_tf_wp }

/-- Shape-derived candidate for the centrepost top radius
(build.py lines 1769-1782 and the identical expression re-used in the
oversize check at lines 1824-1837). -/
def cp_top_candidate (s : BuildState) : ℝ :=
  s.rmajor - s.rminor * s.triang
    - (s.dr_tf_shld_gap + s.dr_shld_thermal_inboard + s.dr_shld_inboard
       + s.dr_shld_blkt_gap + s.dr_blkt_inboard + s.dr_fw_inboard
       + 3.0 * s.dr_fw_plasma_gap_inboard)
    + s.drtop

/-- Centrepost top radius (build.py lines 1765-1839).  For a tight
aspect-ratio resistive device: mode 0 derives r_cp_top from the plasma
shape and clamps it to 1.01 * r_tf_inboard_out with fault 268 when below;
mode 1 applies the same clamp-and-fault to the user value; mode 2 sets
r_cp_top = f_r_cp * r_tf_inboard_out with no clamp.  Other devices copy
r_tf_inboard_out.  Afterwards, for i_r_cp_top different from 0, an
r_cp_top larger than the shape-derived candidate reports fault 256.
The source's if/elif tree is flattened into one conditional expression
per assigned variable (r_cp_top, f_r_cp, errors); the mode-0 and mode-1
branches write f_r_cp from the already clamped r_cp_top, and the fields
cp_top_candidate reads are untouched here, so the final oversize check
can evaluate the candidate on the incoming state. -/
def cp_top_step (s : BuildState) : BuildState :=
  let rv : ℝ :=
    if s.itart = 1 ∧ s.i_tf_sup ≠ 1 then
      if s.i_r_cp_top = 0 then
        if cp_top_candidate s < 1.01 * s.r_tf_inboard_out then
          s.r_tf_inboard_out * 1.01
        else cp_top_candidate s
      else if s.i_r_cp_top = 1 then
        if s.r_cp_top < 1.01 * s.r_tf_inboard_out then
          s.r_tf_inboard_out * 1.01
        else s.r_cp_top
      else if s.i_r_cp_top = 2 then s.f_r_cp * s.r_tf_inboard_out
      else s.r_cp_top
    else s.r_tf_inboard_out
  let fv : ℝ :=
    if s.itart = 1 ∧ s.i_tf_sup ≠ 1 ∧ (s.i_r_cp_top = 0 ∨ s.i_r_cp_top = 1) then
      rv / s.r_tf_inboard_out
    else s.f_r_cp
  let ev : List ℕ :=
    if s.itart = 1 ∧ s.i_tf_sup ≠ 1 ∧
       ((s.i_r_cp_top = 0 ∧ cp_top_candidate s < 1.01 * s.r_tf_inboard_out) ∨
        (s.i_r_cp_top = 1 ∧ s.r_cp_top < 1.01 * s.r_tf_inboard_out)) then
      s.errors ++ [268]
    else s.errors
  let s1 := { s with r_cp_top := rv, f_r_cp := fv, errors := ev }
  { s1 with
    errors :=
      if s1.i_r_cp_top ≠ 0 ∧ s1.r_cp_top > cp_top_candidate s1 then
        s1.errors ++ [256]
      else s1.errors }

/-- Inboard vacuum vessel and neutron shield radii and the derived
plasma-centre radius rbld, plus the redundant shield-edge radii rsldi and
rsldo computed directly from rmajor and rminor
(build.py lines 1840-1896). -/
def shield_step (s : BuildState) : BuildState :=
  let s1 := { s with
    r_vv_inboard_out :=
      if s.tf_in_cs = 1 then
        s.r_tf_inboard_out + s.dr_cs + s.dr_cs_tf_gap + s.dr_cs_precomp
          + s.dr_tf_shld_gap + s.dr_shld_thermal_inboard
          + s.dr_shld_vv_gap_inboard + s.dr_vv_inboard
      else
        s.r_tf_inboard_out + s.dr_tf_shld_gap + s.dr_shld_thermal_inboard
          + s.dr_shld_vv_gap_inboard + s.dr_vv_inboard }
  let s2 := { s1 with r_sh_inboard_in := s1.r_vv_inboard_out }
  let s3 := { s2 with r_sh_inboard_out := s2.r_sh_inboard_in + s2.dr_shld_inboard }
  let s4 := { s3 with
    rbld :=
      s3.r_sh_inboard_out + s3.dr_shld_blkt_gap + s3.dr_blkt_inboard
        + s3.dr_fw_inboard + s3.dr_fw_plasma_gap_inboard + s3.rminor }
  let s5 := { s4 with
    rsldi :=
      s4.rmajor - s4.rminor - s4.dr_fw_plasma_gap_inboard - s4.dr_fw_inboard
        - s4.dr_blkt_inboard - s4.dr_shld_inboard }
  { s5 with
    rsldo :=
      s5.rmajor + s5.rminor + s5.dr_fw_plasma_gap_outboard + s5.dr_fw_outboard
        + s5.dr_blkt_outboard + s5.dr_shld_outboard }

/-- Outboard TF leg thickness, initial outboard leg mid-radius and TF
horizontal bore (build.py lines 1898-1920). -/
def outboard_step (s : BuildState) : BuildState :=
  let s1 := { s with
    dr_tf_outboard :=
      if s.i_tf_sup ≠ 1 then s.tfootfi * s.dr_tf_inboard
      else s.dr_tf_inboard }
  let s2 := { s1 with
    r_tf_outboard_mid :=
      s1.rsldo + s1.dr_shld_blkt_gap + s1.dr_vv_outboard + s1.gapomin
        + s1.dr_shld_thermal_outboard + s1.dr_tf_shld_gap
        + 0.5 * s1.dr_tf_outboard }
  { s2 with
    dr_tf_inner_bore :=
      (s2.r_tf_outboard_mid - 0.5 * s2.dr_tf_outboard)
        - (s2.r_tf_inboard_mid - 0.5 * s2.dr_tf_inboard) }

/-- The state of calculate_radial_build just before the centrepost
top-radius block: build.py lines 1650-1763 composed in source order. -/
def radial_build_pre_cp (s : BuildState) : BuildState :=
  dr_tf_wp_step (r_tf_inboard_out_step (dr_tf_inboard_step
    (r_tf_inboard_in_step (precomp_step (vgaptop_floor_step
      (blnktth_step (blanket_resolve_step s)))))))

/-- The state of calculate_radial_build just before the ripple feedback
block: build.py lines 1650-1920 composed in source order. -/
def radial_build_pre_ripple (s : BuildState) : BuildState :=
  outboard_step (shield_step (cp_top_step (radial_build_pre_cp s)))

/-- Ripple feedback block (build.py lines 1922-1961): a first
ripple_amplitude call stores its ripple and flag; if the ripple-limited
minimum radius exceeds the current outboard mid-radius the mid-radius is
moved out to it and gapsto and dr_tf_inner_bore are recomputed by
difference, otherwise gapsto falls back to gapomin; then a second
ripple_amplitude call with the (possibly updated) mid-radius overwrites
the stored ripple and flag. -/
def ripple_feedback_step (s : BuildState) : BuildState :=
  let first := ripple_amplitude s s.ripmax s.r_tf_outboard_mid
  let s0 := { s with ripple := first.ripple, ripflag := first.flag }
  let s1 := { s0 with
    r_tf_outboard_mid :=
      if first.r_tf_outboard_midmin > s0.r_tf_outboard_mid then
        first.r_tf_outboard_midmin
      else s0.r_tf_outboard_mid
    gapsto :=
      if first.r_tf_outboard_midmin > s0.r_tf_outboard_mid then
        first.r_tf_outboard_midmin - 0.5 * s0.dr_tf_outboard
          - s0.dr_vv_outboard - s0.rsldo - s0.dr_shld_thermal_outboard
          - s0.dr_tf_shld_gap - s0.dr_shld_blkt_gap
      else s0.gapomin
    dr_tf_inner_bore :=
      if first.r_tf_outboard_midmin > s0.r_tf_outboard_mid then
        (first.r_tf_outboard_midmin - 0.5 * s0.dr_tf_outboard)
          - (s0.r_tf_inboard_mid - 0.5 * s0.dr_tf_inboard)
      else s0.dr_tf_inner_bore }
  let second := ripple_amplitude s1 s1.ripmax s1.r_tf_outboard_mid
  { s1 with ripple := second.ripple, ripflag := second.flag }

/-- Build.calculate_radial_build (build.py lines 1635-1961).  The source
continues after the ripple feedback with the first-wall surface area
(computed by the external maths_library shell-area routines, writing only
fwareaib, fwareaob, fwarea and possibly fault 61) and, under the output
flag, with printing of the radial build table; neither touches any field
read by the theorems below, and the cumulative radii of that table are
embedded separately as inboard_cumulative_radius. -/
def calculate_radial_build (s : BuildState) : BuildState :=
  ripple_feedback_step (radial_build_pre_ripple s)

/-- Cumulative radius of the printed radial build table after the last
inboard layer, the inboard scrape-off gap (build.py lines 2147-2307):
the running radius starts at the device centreline and adds each inboard
layer thickness in table order, with the tf_in_cs placement variants of
the bore/TF/gap block (both i_tf_bucking sub-branches of the tf_in_cs = 1
case add the same hollow-bore amount). -/
def inboard_cumulative_radius (s : BuildState) : ℝ :=
  let r0 : ℝ := 0.0
  let r1 :=
    if s.tf_in_cs = 1 ∧ s.i_tf_bucking ≥ 2 then
      r0 + s.dr_bore - s.dr_tf_inboard - s.dr_cs_tf_gap
    else if s.tf_in_cs = 1 ∧ s.i_tf_bucking < 2 then
      r0 + s.dr_bore - s.dr_tf_inboard - s.dr_cs_tf_gap
    else r0 + s.dr_bore
  let r2 := if s.tf_in_cs = 1 then r1 + s.dr_tf_inboard + s.dr_cs_tf_gap else r1
  let r3 := r2 + s.dr_cs
  let r4 := r3 + s.dr_cs_precomp
  let r5 := if s.tf_in_cs = 0 then r4 + s.dr_cs_tf_gap + s.dr_tf_inboard else r4
  r5 + s.dr_tf_shld_gap + s.dr_shld_thermal_inboard + s.dr_shld_vv_gap_inboard
    + s.dr_vv_inboard + s.dr_shld_inboard + s.dr_shld_blkt_gap
    + s.dr_blkt_inboard + s.dr_fw_inboard + s.dr_fw_plasma_gap_inboard

/-- Build.divgeom (build.py lines 815-1481): divertor geometry.  Returns
the divertor height together with the updated state (the routine writes
build_variables.rspo, the outer strike point radius).  For a tight
aspect-ratio device (itart = 1) it returns 1.75 * rminor immediately and
leaves the state untouched.  Otherwise it fits inner and outer plasma
boundary arcs, derives the leg angles, the lower X-point, the strike
points and the plate end corners, and returns the plate vertical span;
the output-flag branch of the source only prints and is not modelled, and
the radial coordinates of the inner strike point and of the plate corners
(rspi, rplti, rplbi, rplto, rplbo), which feed nothing but that printing,
are omitted. -/
def divgeom (s : BuildState) : ℝ × BuildState :=
  if s.itart = 1 then (1.75 * s.rminor, s)
  else
    let kap := s.kappa
    let tril := s.triang
    let rco := 0.5 * Real.sqrt
      ((s.rminor ^ 2 * ((tril + 1.0) ^ 2 + kap ^ 2) ^ 2) / ((tril + 1.0) ^ 2))
    let rci := 0.5 * Real.sqrt
      ((s.rminor ^ 2 * ((tril - 1.0) ^ 2 + kap ^ 2) ^ 2) / ((tril - 1.0) ^ 2))
    let thetao := Real.arcsin (1.0 - (s.rminor * (1.0 - tril)) / rci)
    let thetai := Real.arcsin (1.0 - (s.rminor * (1.0 + tril)) / rco)
    let rxpt := s.rmajor - tril * s.rminor
    let zxpt := -1.0 * kap * s.rminor
    let zspi := zxpt - s.plsepi * Real.sin thetai
    let rspo := rxpt + s.plsepo * Real.cos thetao
    let zspo := zxpt - s.plsepo * Real.sin thetao
    let zplti := zspi + (s.plleni / 2.0) * Real.sin (thetai + s.betai)
    let zplbi := zspi - (s.plleni / 2.0) * Real.sin (thetai + s.betai)
    let zplto := zspo + (s.plleno / 2.0) * Real.sin (thetao + s.betao)
    let zplbo := zspo - (s.plleno / 2.0) * Real.sin (thetao + s.betao)
    let divht := max zplti zplto - min zplbo zplbi
    (divht, { s with rspo := rspo })

/-- The vertical-build walk of calculate_vertical_build (build.py lines
129-699), executed only under the output flag.  The walk starts at the
cryostat roof with the full top half-height, subtracts each layer in
turn down to the cryostat floor, and along the way records the TF-coil
top snapshot, the total TF-coil height when the TF coil is passed the
second time, the TF inner bore height, and the TF/plasma vertical offset
as the mean of the first and last running heights.  The double-null
branch (i_single_null = 0) uses the divertor structure top and bottom;
the single-null branch inserts the top blanket and first wall instead.
The only state writes in the source walk are dh_tf_inner_bore and
tfoffset. -/
def vertical_build_walk (s : BuildState) : BuildState :=
  if s.i_single_null = 0 then
    let vbuild0 := s.dz_tf_cryostat + s.dr_tf_inboard + s.dr_tf_shld_gap
      + s.thshield_vb + s.vgap_vv_thermalshield + s.d_vv_top + s.shldtth
      + s.divfix + s.vgaptop + s.rminor * s.kappa
    let vbuile1 := vbuild0
    let vbuild1 := vbuild0 - s.dz_tf_cryostat
    let tf_top := vbuild1
    let vbuild2 := vbuild1 - s.dr_tf_inboard
    let vbuild3 := vbuild2 - s.dr_tf_shld_gap
    let vbuild4 := vbuild3 - s.thshield_vb
    let vbuild5 := vbuild4 - s.vgap_vv_thermalshield
    let vbuild6 := vbuild5 - s.d_vv_top - s.shldtth
    let vbuild7 := vbuild6 - s.divfix
    let vbuild8 := vbuild7 - s.vgaptop
    let vbuild9 := vbuild8 - s.rminor * s.kappa
    let vbuild10 := vbuild9 - s.rminor * s.kappa
    let vbuild11 := vbuild10 - s.vgap_xpoint_divertor
    let vbuild12 := vbuild11 - s.divfix
    let vbuild13 := vbuild12 - s.shldlth
    let vbuild14 := vbuild13 - s.d_vv_bot
    let vbuild15 := vbuild14 - s.vgap_vv_thermalshield
    let vbuild16 := vbuild15 - s.thshield_vb
    let vbuild17 := vbuild16 - s.dr_tf_shld_gap
    let vbuild18 := vbuild17 - s.dr_tf_inboard
    let tf_height := tf_top - vbuild18
    let vbuild19 := vbuild18 - s.dz_tf_cryostat
    { s with
      dh_tf_inner_bore := tf_height - 2.0 * s.dr_tf_inboard
      tfoffset := (vbuile1 + vbuild19) / 2.0 }
  else
    let vbuild0 := s.dz_tf_cryostat + s.dr_tf_inboard + s.dr_tf_shld_gap
      + s.thshield_vb + s.vgap_vv_thermalshield
      + 0.5 * (s.d_vv_top + s.d_vv_bot) + s.dr_shld_blkt_gap + s.shldtth
      + s.blnktth + 0.5 * (s.dr_fw_inboard + s.dr_fw_outboard) + s.vgaptop
      + s.rminor * s.kappa
    let vbuile1 := vbuild0
    let vbuild1 := vbuild0 - s.dz_tf_cryostat
    let tf_top := vbuild1
    let vbuild2 := vbuild1 - s.dr_tf_inboard
    let vbuild3 := vbuild2 - s.dr_tf_shld_gap
    let vbuild4 := vbuild3 - s.thshield_vb
    let vbuild5 := vbuild4 - s.vgap_vv_thermalshield
    let vbuild6 := vbuild5 - s.d_vv_top - s.shldtth
    let vbuild7 := vbuild6 - s.dr_shld_blkt_gap
    let vbuild8 := vbuild7 - s.blnktth
    let fwtth := 0.5 * (s.dr_fw_inboard + s.dr_fw_outboard)
    let vbuild9 := vbuild8 - fwtth
    let vbuild10 := vbuild9 - s.vgaptop
    let vbuild11 := vbuild10 - s.rminor * s.kappa
    let vbuild12 := vbuild11 - s.rminor * s.kappa
    let vbuild13 := vbuild12 - s.vgap_xpoint_divertor
    let vbuild14 := vbuild13 - s.divfix
    let vbuild15 := vbuild14 - s.shldlth
    let vbuild16 := vbuild15 - s.d_vv_bot
    let vbuild17 := vbuild16 - s.vgap_vv_thermalshield
    let vbuild18 := vbuild17 - s.thshield_vb
    let vbuild19 := vbuild18 - s.dr_tf_shld_gap
    let vbuild20 := vbuild19 - s.dr_tf_inboard
    let tf_height := tf_top - vbuild20
    let vbuild21 := vbuild20 - s.dz_tf_cryostat
    { s with
      dh_tf_inner_bore := tf_height - 2.0 * s.dr_tf_inboard
      tfoffset := (vbuile1 + vbuild21) / 2.0 }

/-- The first running-height snapshot of the vertical walk (the height of
the very top of the machine, vbuild before any subtraction). -/
def vb_start (s : BuildState) : ℝ :=
  if s.i_single_null = 0 then
    s.dz_tf_cryostat + s.dr_tf_inboard + s.dr_tf_shld_gap + s.thshield_vb
      + s.vgap_vv_thermalshield + s.d_vv_top + s.shldtth + s.divfix
      + s.vgaptop + s.rminor * s.kappa
  else
    s.dz_tf_cryostat + s.dr_tf_inboard + s.dr_tf_shld_gap + s.thshield_vb
      + s.vgap_vv_thermalshield + 0.5 * (s.d_vv_top + s.d_vv_bot)
      + s.dr_shld_blkt_gap + s.shldtth + s.blnktth
      + 0.5 * (s.dr_fw_inboard + s.dr_fw_outboard) + s.vgaptop
      + s.rminor * s.kappa

/-- The total TF-coil vertical extent seen by the vertical walk: the sum
of every layer subtracted between the TF-top snapshot and the running
height after the TF coil is passed the second time. -/
def vb_tf_height (s : BuildState) : ℝ :=
  if s.i_single_null = 0 then
    (s.dr_tf_inboard + s.dr_tf_shld_gap + s.thshield_vb
       + s.vgap_vv_thermalshield + s.d_vv_top + s.shldtth + s.divfix
       + s.vgaptop + s.rminor * s.kappa)
      + (s.rminor * s.kappa + s.vgap_xpoint_divertor + s.divfix + s.shldlth
         + s.d_vv_bot + s.vgap_vv_thermalshield + s.thshield_vb
         + s.dr_tf_shld_gap + s.dr_tf_inboard)
  else
    (s.dr_tf_inboard + s.dr_tf_shld_gap + s.thshield_vb
       + s.vgap_vv_thermalshield + s.d_vv_top + s.shldtth
       + s.dr_shld_blkt_gap + s.blnktth
       + 0.5 * (s.dr_fw_inboard + s.dr_fw_outboard) + s.vgaptop
       + s.rminor * s.kappa)
      + (s.rminor * s.kappa + s.vgap_xpoint_divertor + s.divfix + s.shldlth
         + s.d_vv_bot + s.vgap_vv_thermalshield + s.thshield_vb
         + s.dr_tf_shld_gap + s.dr_tf_inboard)

/-- The last running-height snapshot of the vertical walk (the height of
the very bottom of the machine, below the cryostat floor). -/
def vb_end (s : BuildState) : ℝ :=
  vb_start s - s.dz_tf_cryostat - vb_tf_height s - s.dz_tf_cryostat

/-- Build.calculate_vertical_build (build.py lines 105-760).  The walk of
the upper and lower stacks runs only under the output flag; afterwards,
unconditionally, the divertor geometry is evaluated, the X-point-to-
divertor gap is auto-filled with the computed divertor height when it was
below 1e-5, the maximum half-height hmax is re-summed from the lower
stack, and the upper coil positions hpfu and hpfdif are derived by the
null-configuration switch. -/
def calculate_vertical_build (output : Bool) (s : BuildState) : BuildState :=
  let s1 := if output then vertical_build_walk s else s
  let d := divgeom s1
  let s2 := d.2
  let s3 := { s2 with
    vgap_xpoint_divertor :=
      if s2.vgap_xpoint_divertor < 1e-5 then d.1
      else s2.vgap_xpoint_divertor }
  let s4 := { s3 with
    hmax :=
      s3.rminor * s3.kappa + s3.vgap_xpoint_divertor + s3.divfix + s3.shldlth
        + s3.d_vv_bot + s3.vgap_vv_thermalshield + s3.thshield_vb
        + s3.dr_tf_shld_gap }
  let hpfu_sn := s4.dr_tf_inboard + s4.dr_tf_shld_gap + s4.thshield_vb
    + s4.vgap_vv_thermalshield + s4.d_vv_top + s4.shldtth
    + s4.dr_shld_blkt_gap + s4.blnktth
    + 0.5 * (s4.dr_fw_inboard + s4.dr_fw_outboard) + s4.vgaptop
    + s4.rminor * s4.kappa
  { s4 with
    hpfu :=
      if s4.i_single_null = 0 then s4.hmax + s4.dr_tf_inboard else hpfu_sn
    hpfdif :=
      if s4.i_single_null = 0 then 0.0
      else (hpfu_sn - (s4.hmax + s4.dr_tf_inboard)) / 2.0 }

/-- The first of the two ripple_amplitude invocations of
calculate_radial_build (build.py lines 1922-1929), evaluated on the state
just before the feedback block with the initial outboard mid-radius
estimate. -/
def first_ripple_call (s : BuildState) : RippleResult :=
  ripple_amplitude (radial_build_pre_ripple s)
    (radial_build_pre_ripple s).ripmax
    (radial_build_pre_ripple s).r_tf_outboard_mid

/-- A neutral device-parameter record (all quantities zero, all switches
zero, no iteration variables, no recorded faults) used as the base of the
concrete evaluation states below. -/
def base_state : BuildState where
  rmajor := 0
  rminor := 0
  kappa := 0
  triang := 0
  itart := 0
  i_single_null := 0
  idivrt := 0
  blktmodel := 0
  ixc := []
  nvar := 0
  n_tf := 0
  i_tf_sup := 0
  i_tf_wp_geom := 0
  i_tf_shape := 0
  i_tf_bucking := 0
  dr_tf_wp := 0
  thkcas := 0
  casthi := 0
  casths := 0
  casths_fraction := 0
  tfc_sidewall_is_fraction := false
  tinstf := 0
  tfinsgap := 0
  ripmax := 0
  ripple := 0
  drtop := 0
  ripflag := 0
  dr_bore := 0
  dr_cs := 0
  dr_cs_precomp := 0
  dr_cs_tf_gap := 0
  iprecomp := 0
  fseppc := 0
  fcspc := 0
  sigallpc := 0
  tf_in_cs := 0
  dr_tf_inboard := 0
  r_tf_inboard_in := 0
  r_tf_inboard_mid := 0
  r_tf_inboard_out := 0
  i_r_cp_top := 0
  r_cp_top := 0
  f_r_cp := 0
  dr_tf_shld_gap := 0
  dr_shld_thermal_inboard := 0
  dr_shld_thermal_outboard := 0
  dr_shld_vv_gap_inboard := 0
  dr_vv_inboard := 0
  dr_vv_outboard := 0
  dr_shld_inboard := 0
  dr_shld_outboard := 0
  dr_shld_blkt_gap := 0
  dr_blkt_inboard := 0
  dr_blkt_outboard := 0
  blbuith := 0
  blbmith := 0
  blbpith := 0
  blbuoth := 0
  blbmoth := 0
  blbpoth := 0
  dr_fw_inboard := 0
  dr_fw_outboard := 0
  dr_fw_plasma_gap_inboard := 0
  dr_fw_plasma_gap_outboard := 0
  r_vv_inboard_out := 0
  r_sh_inboard_in := 0
  r_sh_inboard_out := 0
  rbld := 0
  rsldi := 0
  rsldo := 0
  tfootfi := 0
  dr_tf_outboard := 0
  gapomin := 0
  gapsto := 0
  r_tf_outboard_mid := 0
  dr_tf_inner_bore := 0
  shldtth := 0
  shldlth := 0
  blnktth := 0
  vgaptop := 0
  vgap_xpoint_divertor := 0
  vgap_vv_thermalshield := 0
  d_vv_top := 0
  d_vv_bot := 0
  thshield_vb := 0
  dh_tf_inner_bore := 0
  tfoffset := 0
  hmax := 0
  hpfu := 0
  hpfdif := 0
  plsepi := 0
  plsepo := 0
  plleni := 0
  plleno := 0
  rspo := 0
  divfix := 0
  betai := 0
  betao := 0
  dz_tf_cryostat := 0
  errors := []

/-- A parameter set with every inboard layer thickness equal to one metre
(the precompression structure thickness is derived by the force-balance
formula and also comes out as exactly one metre) but rmajor = 100 and
rminor = 1, so the inboard layers sum to 14 while rmajor - rminor = 99. -/
def c1_state : BuildState :=
  { base_state with
    rmajor := 100
    rminor := 1
    iprecomp := 1
    fseppc := 6 * Real.pi
    fcspc := 1
    sigallpc := 1
    dr_bore := 1
    dr_cs := 1
    dr_cs_tf_gap := 1
    dr_tf_inboard := 1
    dr_tf_shld_gap := 1
    dr_shld_thermal_inboard := 1
    dr_shld_vv_gap_inboard := 1
    dr_vv_inboard := 1
    dr_shld_inboard := 1
    dr_shld_blkt_gap := 1
    dr_blkt_inboard := 1
    dr_fw_inboard := 1
    dr_fw_plasma_gap_inboard := 1 }

/-- A tight-aspect-ratio resistive device using top-radius mode 2
(fraction of the midplane radius) with fraction 0.5: the stored top
radius ends up at half the outer midplane radius, well below the 1.01
floor, and no fault is recorded. -/
def c5_state : BuildState :=
  { base_state with
    itart := 1
    i_tf_sup := 0
    i_r_cp_top := 2
    f_r_cp := 0.5
    rmajor := 100
    rminor := 1
    dr_bore := 1
    dr_tf_inboard := 1
    dr_tf_shld_gap := 1
    dr_shld_thermal_inboard := 1
    dr_shld_inboard := 1
    dr_shld_blkt_gap := 1
    dr_blkt_inboard := 1
    dr_fw_inboard := 1
    dr_fw_plasma_gap_inboard := 1 }

/-- The same tight-aspect-ratio resistive device with a user-fixed top
radius (mode 1) of zero, which lies below the 1.01 floor. -/
def c5_witness_state : BuildState :=
  { c5_state with i_r_cp_top := 1, r_cp_top := 0 }

/-- A conventionally shaped coil (i_tf_shape = 1) on an otherwise neutral
parameter set; with rmajor = 0 the winding-pack ratio x collapses to zero
and the fit coefficient c1 is exactly 0.875. -/
def c3_state : BuildState :=
  { base_state with i_tf_shape := 1 }

/-- A tight-aspect-ratio device for exercising the divgeom short
circuit. -/
def c7_state : BuildState :=
  { base_state with itart := 1, rminor := 2 }

/-- A picture-frame coil with two TF coils and rmajor + rminor = 1. -/
def c9_state : BuildState :=
  { base_state with i_tf_shape := 2, n_tf := 2, rmajor := 0.5, rminor := 0.5 }

/-- A single-null device with one-metre first-wall-to-plasma gaps and a
zero user scrape-off gap. -/
def c10_state : BuildState :=
  { base_state with
    i_single_null := 1
    dr_fw_plasma_gap_inboard := 1
    dr_fw_plasma_gap_outboard := 1
    vgaptop := 0 }

/-- A double-null tight-aspect-ratio device with one-metre vertical
layers (except a 2 m topside vessel, making the stack asymmetric), unit
plasma half-height, and zeroed dh_tf_inner_bore and tfoffset, used to
observe that a call without the output flag leaves those fields at their
prior values. -/
def c4_state : BuildState :=
  { base_state with
    itart := 1
    i_single_null := 0
    dz_tf_cryostat := 1
    dr_tf_inboard := 1
    dr_tf_shld_gap := 1
    thshield_vb := 1
    vgap_vv_thermalshield := 1
    d_vv_top := 2
    d_vv_bot := 1
    shldtth := 1
    shldlth := 1
    divfix := 1
    vgaptop := 1
    rminor := 1
    kappa := 1
    vgap_xpoint_divertor := 1 }

/-!
Projection lemmas for the radial-build steps.  Each step of
calculate_radial_build is a single record update, so every projection it
does not write passes through unchanged; the lemmas below record this one
step at a time (each is definitional), and later proofs chain them with
simp only instead of unfolding the whole composite, which keeps the
rewriting linear in the number of steps.
-/

theorem blanket_resolve_step_itart (t : BuildState) : (blanket_resolve_step t).itart = t.itart := rfl

theorem blanket_resolve_step_i_tf_sup (t : BuildState) : (blanket_resolve_step t).i_tf_sup = t.i_tf_sup := rfl

theorem blanket_resolve_step_i_r_cp_top (t : BuildState) : (blanket_resolve_step t).i_r_cp_top = t.i_r_cp_top := rfl

theorem blanket_resolve_step_r_cp_top (t : BuildState) : (blanket_resolve_step t).r_cp_top = t.r_cp_top := rfl

theorem blanket_resolve_step_f_r_cp (t : BuildState) : (blanket_resolve_step t).f_r_cp = t.f_r_cp := rfl

theorem blanket_resolve_step_errors (t : BuildState) : (blanket_resolve_step t).errors = t.errors := rfl

theorem blanket_resolve_step_rminor (t : BuildState) : (blanket_resolve_step t).rminor = t.rminor := rfl

theorem blanket_resolve_step_tf_in_cs (t : BuildState) : (blanket_resolve_step t).tf_in_cs = t.tf_in_cs := rfl

theorem blanket_resolve_step_i_tf_bucking (t : BuildState) : (blanket_resolve_step t).i_tf_bucking = t.i_tf_bucking := rfl

theorem blanket_resolve_step_dr_bore (t : BuildState) : (blanket_resolve_step t).dr_bore = t.dr_bore := rfl

theorem blanket_resolve_step_dr_cs (t : BuildState) : (blanket_resolve_step t).dr_cs = t.dr_cs := rfl

theorem blanket_resolve_step_dr_cs_precomp (t : BuildState) : (blanket_resolve_step t).dr_cs_precomp = t.dr_cs_precomp := rfl

theorem blanket_resolve_step_dr_cs_tf_gap (t : BuildState) : (blanket_resolve_step t).dr_cs_tf_gap = t.dr_cs_tf_gap := rfl

theorem blanket_resolve_step_dr_tf_inboard (t : BuildState) : (blanket_resolve_step t).dr_tf_inboard = t.dr_tf_inboard := rfl

theorem blanket_resolve_step_dr_tf_shld_gap (t : BuildState) : (blanket_resolve_step t).dr_tf_shld_gap = t.dr_tf_shld_gap := rfl

theorem blanket_resolve_step_dr_shld_thermal_inboard (t : BuildState) : (blanket_resolve_step t).dr_shld_thermal_inboard = t.dr_shld_thermal_inboard := rfl

theorem blanket_resolve_step_dr_shld_vv_gap_inboard (t : BuildState) : (blanket_resolve_step t).dr_shld_vv_gap_inboard = t.dr_shld_vv_gap_inboard := rfl

theorem blanket_resolve_step_dr_vv_inboard (t : BuildState) : (blanket_resolve_step t).dr_vv_inboard = t.dr_vv_inboard := rfl

theorem blanket_resolve_step_dr_shld_inboard (t : BuildState) : (blanket_resolve_step t).dr_shld_inboard = t.dr_shld_inboard := rfl

theorem blanket_resolve_step_dr_shld_blkt_gap (t : BuildState) : (blanket_resolve_step t).dr_shld_blkt_gap = t.dr_shld_blkt_gap := rfl

theorem blanket_resolve_step_dr_fw_inboard (t : BuildState) : (blanket_resolve_step t).dr_fw_inboard = t.dr_fw_inboard := rfl

theorem blanket_resolve_step_dr_fw_plasma_gap_inboard (t : BuildState) : (blanket_resolve_step t).dr_fw_plasma_gap_inboard = t.dr_fw_plasma_gap_inboard := rfl

theorem blanket_resolve_step_r_tf_inboard_in (t : BuildState) : (blanket_resolve_step t).r_tf_inboard_in = t.r_tf_inboard_in := rfl

theorem blanket_resolve_step_r_tf_inboard_out (t : BuildState) : (blanket_resolve_step t).r_tf_inboard_out = t.r_tf_inboard_out := rfl

theorem blanket_resolve_step_rbld (t : BuildState) : (blanket_resolve_step t).rbld = t.rbld := rfl


theorem blnktth_step_itart (t : BuildState) : (blnktth_step t).itart = t.itart := rfl

theorem blnktth_step_i_tf_sup (t : BuildState) : (blnktth_step t).i_tf_sup = t.i_tf_sup := rfl

theorem blnktth_step_i_r_cp_top (t : BuildState) : (blnktth_step t).i_r_cp_top = t.i_r_cp_top := rfl

theorem blnktth_step_r_cp_top (t : BuildState) : (blnktth_step t).r_cp_top = t.r_cp_top := rfl

theorem blnktth_step_f_r_cp (t : BuildState) : (blnktth_step t).f_r_cp = t.f_r_cp := rfl

theorem blnktth_step_errors (t : BuildState) : (blnktth_step t).errors = t.errors := rfl

theorem blnktth_step_rminor (t : BuildState) : (blnktth_step t).rminor = t.rminor := rfl

theorem blnktth_step_tf_in_cs (t : BuildState) : (blnktth_step t).tf_in_cs = t.tf_in_cs := rfl

theorem blnktth_step_i_tf_bucking (t : BuildState) : (blnktth_step t).i_tf_bucking = t.i_tf_bucking := rfl

theorem blnktth_step_dr_bore (t : BuildState) : (blnktth_step t).dr_bore = t.dr_bore := rfl

theorem blnktth_step_dr_cs (t : BuildState) : (blnktth_step t).dr_cs = t.dr_cs := rfl

theorem blnktth_step_dr_cs_precomp (t : BuildState) : (blnktth_step t).dr_cs_precomp = t.dr_cs_precomp := rfl

theorem blnktth_step_dr_cs_tf_gap (t : BuildState) : (blnktth_step t).dr_cs_tf_gap = t.dr_cs_tf_gap := rfl

theorem blnktth_step_dr_tf_inboard (t : BuildState) : (blnktth_step t).dr_tf_inboard = t.dr_tf_inboard := rfl

theorem blnktth_step_dr_tf_shld_gap (t : BuildState) : (blnktth_step t).dr_tf_shld_gap = t.dr_tf_shld_gap := rfl

theorem blnktth_step_dr_shld_thermal_inboard (t : BuildState) : (blnktth_step t).dr_shld_thermal_inboard = t.dr_shld_thermal_inboard := rfl

theorem blnktth_step_dr_shld_vv_gap_inboard (t : BuildState) : (blnktth_step t).dr_shld_vv_gap_inboard = t.dr_shld_vv_gap_inboard := rfl

theorem blnktth_step_dr_vv_inboard (t : BuildState) : (blnktth_step t).dr_vv_inboard = t.dr_vv_inboard := rfl

theorem blnktth_step_dr_shld_inboard (t : BuildState) : (blnktth_step t).dr_shld_inboard = t.dr_shld_inboard := rfl

theorem blnktth_step_dr_shld_blkt_gap (t : BuildState) : (blnktth_step t).dr_shld_blkt_gap = t.dr_shld_blkt_gap := rfl

theorem blnktth_step_dr_blkt_inboard (t : BuildState) : (blnktth_step t).dr_blkt_inboard = t.dr_blkt_inboard := rfl

theorem blnktth_step_dr_fw_inboard (t : BuildState) : (blnktth_step t).dr_fw_inboard = t.dr_fw_inboard := rfl

theorem blnktth_step_dr_fw_plasma_gap_inboard (t : BuildState) : (blnktth_step t).dr_fw_plasma_gap_inboard = t.dr_fw_plasma_gap_inboard := rfl

theorem blnktth_step_r_tf_inboard_in (t : BuildState) : (blnktth_step t).r_tf_inboard_in = t.r_tf_inboard_in := rfl

theorem blnktth_step_r_tf_inboard_out (t : BuildState) : (blnktth_step t).r_tf_inboard_out = t.r_tf_inboard_out := rfl

theorem blnktth_step_rbld (t : BuildState) : (blnktth_step t).rbld = t.rbld := rfl


theorem vgaptop_floor_step_itart (t : BuildState) : (vgaptop_floor_step t).itart = t.itart := rfl

theorem vgaptop_floor_step_i_tf_sup (t : BuildState) : (vgaptop_floor_step t).i_tf_sup = t.i_tf_sup := rfl

theorem vgaptop_floor_step_i_r_cp_top (t : BuildState) : (vgaptop_floor_step t).i_r_cp_top = t.i_r_cp_top := rfl

theorem vgaptop_floor_step_r_cp_top (t : BuildState) : (vgaptop_floor_step t).r_cp_top = t.r_cp_top := rfl

theorem vgaptop_floor_step_f_r_cp (t : BuildState) : (vgaptop_floor_step t).f_r_cp = t.f_r_cp := rfl

theorem vgaptop_floor_step_errors (t : BuildState) : (vgaptop_floor_step t).errors = t.errors := rfl

theorem vgaptop_floor_step_rminor (t : BuildState) : (vgaptop_floor_step t).rminor = t.rminor := rfl

theorem vgaptop_floor_step_tf_in_cs (t : BuildState) : (vgaptop_floor_step t).tf_in_cs = t.tf_in_cs := rfl

theorem vgaptop_floor_step_i_tf_bucking (t : BuildState) : (vgaptop_floor_step t).i_tf_bucking = t.i_tf_bucking := rfl

theorem vgaptop_floor_step_dr_bore (t : BuildState) : (vgaptop_floor_step t).dr_bore = t.dr_bore := rfl

theorem vgaptop_floor_step_dr_cs (t : BuildState) : (vgaptop_floor_step t).dr_cs = t.dr_cs := rfl

theorem vgaptop_floor_step_dr_cs_precomp (t : BuildState) : (vgaptop_floor_step t).dr_cs_precomp = t.dr_cs_precomp := rfl

theorem vgaptop_floor_step_dr_cs_tf_gap (t : BuildState) : (vgaptop_floor_step t).dr_cs_tf_gap = t.dr_cs_tf_gap := rfl

theorem vgaptop_floor_step_dr_tf_inboard (t : BuildState) : (vgaptop_floor_step t).dr_tf_inboard = t.dr_tf_inboard := rfl

theorem vgaptop_floor_step_dr_tf_shld_gap (t : BuildState) : (vgaptop_floor_step t).dr_tf_shld_gap = t.dr_tf_shld_gap := rfl

theorem vgaptop_floor_step_dr_shld_thermal_inboard (t : BuildState) : (vgaptop_floor_step t).dr_shld_thermal_inboard = t.dr_shld_thermal_inboard := rfl

theorem vgaptop_floor_step_dr_shld_vv_gap_inboard (t : BuildState) : (vgaptop_floor_step t).dr_shld_vv_gap_inboard = t.dr_shld_vv_gap_inboard := rfl

theorem vgaptop_floor_step_dr_vv_inboard (t : BuildState) : (vgaptop_floor_step t).dr_vv_inboard = t.dr_vv_inboard := rfl

theorem vgaptop_floor_step_dr_shld_inboard (t : BuildState) : (vgaptop_floor_step t).dr_shld_inboard = t.dr_shld_inboard := rfl

theorem vgaptop_floor_step_dr_shld_blkt_gap (t : BuildState) : (vgaptop_floor_step t).dr_shld_blkt_gap = t.dr_shld_blkt_gap := rfl

theorem vgaptop_floor_step_dr_blkt_inboard (t : BuildState) : (vgaptop_floor_step t).dr_blkt_inboard = t.dr_blkt_inboard := rfl

theorem vgaptop_floor_step_dr_fw_inboard (t : BuildState) : (vgaptop_floor_step t).dr_fw_inboard = t.dr_fw_inboard := rfl

theorem vgaptop_floor_step_dr_fw_plasma_gap_inboard (t : BuildState) : (vgaptop_floor_step t).dr_fw_plasma_gap_inboard = t.dr_fw_plasma_gap_inboard := rfl

theorem vgaptop_floor_step_r_tf_inboard_in (t : BuildState) : (vgaptop_floor_step t).r_tf_inboard_in = t.r_tf_inboard_in := rfl

theorem vgaptop_floor_step_r_tf_inboard_out (t : BuildState) : (vgaptop_floor_step t).r_tf_inboard_out = t.r_tf_inboard_out := rfl

theorem vgaptop_floor_step_rbld (t : BuildState) : (vgaptop_floor_step t).rbld = t.rbld := rfl


theorem precomp_step_itart (t : BuildState) : (precomp_step t).itart = t.itart := rfl

theorem precomp_step_i_tf_sup (t : BuildState) : (precomp_step t).i_tf_sup = t.i_tf_sup := rfl

theorem precomp_step_i_r_cp_top (t : BuildState) : (precomp_step t).i_r_cp_top = t.i_r_cp_top := rfl

theorem precomp_step_r_cp_top (t : BuildState) : (precomp_step t).r_cp_top = t.r_cp_top := rfl

theorem precomp_step_f_r_cp (t : BuildState) : (precomp_step t).f_r_cp = t.f_r_cp := rfl

theorem precomp_step_errors (t : BuildState) : (precomp_step t).errors = t.errors := rfl

theorem precomp_step_rminor (t : BuildState) : (precomp_step t).rminor = t.rminor := rfl

theorem precomp_step_tf_in_cs (t : BuildState) : (precomp_step t).tf_in_cs = t.tf_in_cs := rfl

theorem precomp_step_i_tf_bucking (t : BuildState) : (precomp_step t).i_tf_bucking = t.i_tf_bucking := rfl

theorem precomp_step_dr_bore (t : BuildState) : (precomp_step t).dr_bore = t.dr_bore := rfl

theorem precomp_step_dr_cs (t : BuildState) : (precomp_step t).dr_cs = t.dr_cs := rfl

theorem precomp_step_dr_cs_tf_gap (t : BuildState) : (precomp_step t).dr_cs_tf_gap = t.dr_cs_tf_gap := rfl

theorem precomp_step_dr_tf_inboard (t : BuildState) : (precomp_step t).dr_tf_inboard = t.dr_tf_inboard := rfl

theorem precomp_step_dr_tf_shld_gap (t : BuildState) : (precomp_step t).dr_tf_shld_gap = t.dr_tf_shld_gap := rfl

theorem precomp_step_dr_shld_thermal_inboard (t : BuildState) : (precomp_step t).dr_shld_thermal_inboard = t.dr_shld_thermal_inboard := rfl

theorem precomp_step_dr_shld_vv_gap_inboard (t : BuildState) : (precomp_step t).dr_shld_vv_gap_inboard = t.dr_shld_vv_gap_inboard := rfl

theorem precomp_step_dr_vv_inboard (t : BuildState) : (precomp_step t).dr_vv_inboard = t.dr_vv_inboard := rfl

theorem precomp_step_dr_shld_inboard (t : BuildState) : (precomp_step t).dr_shld_inboard = t.dr_shld_inboard := rfl

theorem precomp_step_dr_shld_blkt_gap (t : BuildState) : (precomp_step t).dr_shld_blkt_gap = t.dr_shld_blkt_gap := rfl

theorem precomp_step_dr_blkt_inboard (t : BuildState) : (precomp_step t).dr_blkt_inboard = t.dr_blkt_inboard := rfl

theorem precomp_step_dr_fw_inboard (t : BuildState) : (precomp_step t).dr_fw_inboard = t.dr_fw_inboard := rfl

theorem precomp_step_dr_fw_plasma_gap_inboard (t : BuildState) : (precomp_step t).dr_fw_plasma_gap_inboard = t.dr_fw_plasma_gap_inboard := rfl

theorem precomp_step_r_tf_inboard_in (t : BuildState) : (precomp_step t).r_tf_inboard_in = t.r_tf_inboard_in := rfl

theorem precomp_step_r_tf_inboard_out (t : BuildState) : (precomp_step t).r_tf_inboard_out = t.r_tf_inboard_out := rfl

theorem precomp_step_rbld (t : BuildState) : (precomp_step t).rbld = t.rbld := rfl


theorem r_tf_inboard_in_step_itart (t : BuildState) : (r_tf_inboard_in_step t).itart = t.itart := rfl

theorem r_tf_inboard_in_step_i_tf_sup (t : BuildState) : (r_tf_inboard_in_step t).i_tf_sup = t.i_tf_sup := rfl

theorem r_tf_inboard_in_step_i_r_cp_top (t : BuildState) : (r_tf_inboard_in_step t).i_r_cp_top = t.i_r_cp_top := rfl

theorem r_tf_inboard_in_step_r_cp_top (t : BuildState) : (r_tf_inboard_in_step t).r_cp_top = t.r_cp_top := rfl

theorem r_tf_inboard_in_step_f_r_cp (t : BuildState) : (r_tf_inboard_in_step t).f_r_cp = t.f_r_cp := rfl

theorem r_tf_inboard_in_step_errors (t : BuildState) : (r_tf_inboard_in_step t).errors = t.errors := rfl

theorem r_tf_inboard_in_step_rminor (t : BuildState) : (r_tf_inboard_in_step t).rminor = t.rminor := rfl

theorem r_tf_inboard_in_step_tf_in_cs (t : BuildState) : (r_tf_inboard_in_step t).tf_in_cs = t.tf_in_cs := rfl

theorem r_tf_inboard_in_step_i_tf_bucking (t : BuildState) : (r_tf_inboard_in_step t).i_tf_bucking = t.i_tf_bucking := rfl

theorem r_tf_inboard_in_step_dr_bore (t : BuildState) : (r_tf_inboard_in_step t).dr_bore = t.dr_bore := rfl

theorem r_tf_inboard_in_step_dr_cs (t : BuildState) : (r_tf_inboard_in_step t).dr_cs = t.dr_cs := rfl

theorem r_tf_inboard_in_step_dr_cs_precomp (t : BuildState) : (r_tf_inboard_in_step t).dr_cs_precomp = t.dr_cs_precomp := rfl

theorem r_tf_inboard_in_step_dr_cs_tf_gap (t : BuildState) : (r_tf_inboard_in_step t).dr_cs_tf_gap = t.dr_cs_tf_gap := rfl

theorem r_tf_inboard_in_step_dr_tf_inboard (t : BuildState) : (r_tf_inboard_in_step t).dr_tf_inboard = t.dr_tf_inboard := rfl

theorem r_tf_inboard_in_step_dr_tf_shld_gap (t : BuildState) : (r_tf_inboard_in_step t).dr_tf_shld_gap = t.dr_tf_shld_gap := rfl

theorem r_tf_inboard_in_step_dr_shld_thermal_inboard (t : BuildState) : (r_tf_inboard_in_step t).dr_shld_thermal_inboard = t.dr_shld_thermal_inboard := rfl

theorem r_tf_inboard_in_step_dr_shld_vv_gap_inboard (t : BuildState) : (r_tf_inboard_in_step t).dr_shld_vv_gap_inboard = t.dr_shld_vv_gap_inboard := rfl

theorem r_tf_inboard_in_step_dr_vv_inboard (t : BuildState) : (r_tf_inboard_in_step t).dr_vv_inboard = t.dr_vv_inboard := rfl

theorem r_tf_inboard_in_step_dr_shld_inboard (t : BuildState) : (r_tf_inboard_in_step t).dr_shld_inboard = t.dr_shld_inboard := rfl

theorem r_tf_inboard_in_step_dr_shld_blkt_gap (t : BuildState) : (r_tf_inboard_in_step t).dr_shld_blkt_gap = t.dr_shld_blkt_gap := rfl

theorem r_tf_inboard_in_step_dr_blkt_inboard (t : BuildState) : (r_tf_inboard_in_step t).dr_blkt_inboard = t.dr_blkt_inboard := rfl

theorem r_tf_inboard_in_step_dr_fw_inboard (t : BuildState) : (r_tf_inboard_in_step t).dr_fw_inboard = t.dr_fw_inboard := rfl

theorem r_tf_inboard_in_step_dr_fw_plasma_gap_inboard (t : BuildState) : (r_tf_inboard_in_step t).dr_fw_plasma_gap_inboard = t.dr_fw_plasma_gap_inboard := rfl

theorem r_tf_inboard_in_step_r_tf_inboard_out (t : BuildState) : (r_tf_inboard_in_step t).r_tf_inboard_out = t.r_tf_inboard_out := rfl

theorem r_tf_inboard_in_step_rbld (t : BuildState) : (r_tf_inboard_in_step t).rbld = t.rbld := rfl


theorem dr_tf_inboard_step_itart (t : BuildState) : (dr_tf_inboard_step t).itart = t.itart := rfl

theorem dr_tf_inboard_step_i_tf_sup (t : BuildState) : (dr_tf_inboard_step t).i_tf_sup = t.i_tf_sup := rfl

theorem dr_tf_inboard_step_i_r_cp_top (t : BuildState) : (dr_tf_inboard_step t).i_r_cp_top = t.i_r_cp_top := rfl

theorem dr_tf_inboard_step_r_cp_top (t : BuildState) : (dr_tf_inboard_step t).r_cp_top = t.r_cp_top := rfl

theorem dr_tf_inboard_step_f_r_cp (t : BuildState) : (dr_tf_inboard_step t).f_r_cp = t.f_r_cp := rfl

theorem dr_tf_inboard_step_errors (t : BuildState) : (dr_tf_inboard_step t).errors = t.errors := rfl

theorem dr_tf_inboard_step_rminor (t : BuildState) : (dr_tf_inboard_step t).rminor = t.rminor := rfl

theorem dr_tf_inboard_step_tf_in_cs (t : BuildState) : (dr_tf_inboard_step t).tf_in_cs = t.tf_in_cs := rfl

theorem dr_tf_inboard_step_i_tf_bucking (t : BuildState) : (dr_tf_inboard_step t).i_tf_bucking = t.i_tf_bucking := rfl

theorem dr_tf_inboard_step_dr_bore (t : BuildState) : (dr_tf_inboard_step t).dr_bore = t.dr_bore := rfl

theorem dr_tf_inboard_step_dr_cs (t : BuildState) : (dr_tf_inboard_step t).dr_cs = t.dr_cs := rfl

theorem dr_tf_inboard_step_dr_cs_precomp (t : BuildState) : (dr_tf_inboard_step t).dr_cs_precomp = t.dr_cs_precomp := rfl

theorem dr_tf_inboard_step_dr_cs_tf_gap (t : BuildState) : (dr_tf_inboard_step t).dr_cs_tf_gap = t.dr_cs_tf_gap := rfl

theorem dr_tf_inboard_step_dr_tf_shld_gap (t : BuildState) : (dr_tf_inboard_step t).dr_tf_shld_gap = t.dr_tf_shld_gap := rfl

theorem dr_tf_inboard_step_dr_shld_thermal_inboard (t : BuildState) : (dr_tf_inboard_step t).dr_shld_thermal_inboard = t.dr_shld_thermal_inboard := rfl

theorem dr_tf_inboard_step_dr_shld_vv_gap_inboard (t : BuildState) : (dr_tf_inboard_step t).dr_shld_vv_gap_inboard = t.dr_shld_vv_gap_inboard := rfl

theorem dr_tf_inboard_step_dr_vv_inboard (t : BuildState) : (dr_tf_inboard_step t).dr_vv_inboard = t.dr_vv_inboard := rfl

theorem dr_tf_inboard_step_dr_shld_inboard (t : BuildState) : (dr_tf_inboard_step t).dr_shld_inboard = t.dr_shld_inboard := rfl

theorem dr_tf_inboard_step_dr_shld_blkt_gap (t : BuildState) : (dr_tf_inboard_step t).dr_shld_blkt_gap = t.dr_shld_blkt_gap := rfl

theorem dr_tf_inboard_step_dr_blkt_inboard (t : BuildState) : (dr_tf_inboard_step t).dr_blkt_inboard = t.dr_blkt_inboard := rfl

theorem dr_tf_inboard_step_dr_fw_inboard (t : BuildState) : (dr_tf_inboard_step t).dr_fw_inboard = t.dr_fw_inboard := rfl

theorem dr_tf_inboard_step_dr_fw_plasma_gap_inboard (t : BuildState) : (dr_tf_inboard_step t).dr_fw_plasma_gap_inboard = t.dr_fw_plasma_gap_inboard := rfl

theorem dr_tf_inboard_step_r_tf_inboard_in (t : BuildState) : (dr_tf_inboard_step t).r_tf_inboard_in = t.r_tf_inboard_in := rfl

theorem dr_tf_inboard_step_r_tf_inboard_out (t : BuildState) : (dr_tf_inboard_step t).r_tf_inboard_out = t.r_tf_inboard_out := rfl

theorem dr_tf_inboard_step_rbld (t : BuildState) : (dr_tf_inboard_step t).rbld = t.rbld := rfl


theorem r_tf_inboard_out_step_itart (t : BuildState) : (r_tf_inboard_out_step t).itart = t.itart := rfl

theorem r_tf_inboard_out_step_i_tf_sup (t : BuildState) : (r_tf_inboard_out_step t).i_tf_sup = t.i_tf_sup := rfl

theorem r_tf_inboard_out_step_i_r_cp_top (t : BuildState) : (r_tf_inboard_out_step t).i_r_cp_top = t.i_r_cp_top := rfl

theorem r_tf_inboard_out_step_r_cp_top (t : BuildState) : (r_tf_inboard_out_step t).r_cp_top = t.r_cp_top := rfl

theorem r_tf_inboard_out_step_f_r_cp (t : BuildState) : (r_tf_inboard_out_step t).f_r_cp = t.f_r_cp := rfl

theorem r_tf_inboard_out_step_errors (t : BuildState) : (r_tf_inboard_out_step t).errors = t.errors := rfl

theorem r_tf_inboard_out_step_rminor (t : BuildState) : (r_tf_inboard_out_step t).rminor = t.rminor := rfl

theorem r_tf_inboard_out_step_tf_in_cs (t : BuildState) : (r_tf_inboard_out_step t).tf_in_cs = t.tf_in_cs := rfl

theorem r_tf_inboard_out_step_i_tf_bucking (t : BuildState) : (r_tf_inboard_out_step t).i_tf_bucking = t.i_tf_bucking := rfl

theorem r_tf_inboard_out_step_dr_bore (t : BuildState) : (r_tf_inboard_out_step t).dr_bore = t.dr_bore := rfl

theorem r_tf_inboard_out_step_dr_cs (t : BuildState) : (r_tf_inboard_out_step t).dr_cs = t.dr_cs := rfl

theorem r_tf_inboard_out_step_dr_cs_precomp (t : BuildState) : (r_tf_inboard_out_step t).dr_cs_precomp = t.dr_cs_precomp := rfl

theorem r_tf_inboard_out_step_dr_cs_tf_gap (t : BuildState) : (r_tf_inboard_out_step t).dr_cs_tf_gap = t.dr_cs_tf_gap := rfl

theorem r_tf_inboard_out_step_dr_tf_inboard (t : BuildState) : (r_tf_inboard_out_step t).dr_tf_inboard = t.dr_tf_inboard := rfl

theorem r_tf_inboard_out_step_dr_tf_shld_gap (t : BuildState) : (r_tf_inboard_out_step t).dr_tf_shld_gap = t.dr_tf_shld_gap := rfl

theorem r_tf_inboard_out_step_dr_shld_thermal_inboard (t : BuildState) : (r_tf_inboard_out_step t).dr_shld_thermal_inboard = t.dr_shld_thermal_inboard := rfl

theorem r_tf_inboard_out_step_dr_shld_vv_gap_inboard (t : BuildState) : (r_tf_inboard_out_step t).dr_shld_vv_gap_inboard = t.dr_shld_vv_gap_inboard := rfl

theorem r_tf_inboard_out_step_dr_vv_inboard (t : BuildState) : (r_tf_inboard_out_step t).dr_vv_inboard = t.dr_vv_inboard := rfl

theorem r_tf_inboard_out_step_dr_shld_inboard (t : BuildState) : (r_tf_inboard_out_step t).dr_shld_inboard = t.dr_shld_inboard := rfl

theorem r_tf_inboard_out_step_dr_shld_blkt_gap (t : BuildState) : (r_tf_inboard_out_step t).dr_shld_blkt_gap = t.dr_shld_blkt_gap := rfl

theorem r_tf_inboard_out_step_dr_blkt_inboard (t : BuildState) : (r_tf_inboard_out_step t).dr_blkt_inboard = t.dr_blkt_inboard := rfl

theorem r_tf_inboard_out_step_dr_fw_inboard (t : BuildState) : (r_tf_inboard_out_step t).dr_fw_inboard = t.dr_fw_inboard := rfl

theorem r_tf_inboard_out_step_dr_fw_plasma_gap_inboard (t : BuildState) : (r_tf_inboard_out_step t).dr_fw_plasma_gap_inboard = t.dr_fw_plasma_gap_inboard := rfl

theorem r_tf_inboard_out_step_r_tf_inboard_in (t : BuildState) : (r_tf_inboard_out_step t).r_tf_inboard_in = t.r_tf_inboard_in := rfl

theorem r_tf_inboard_out_step_rbld (t : BuildState) : (r_tf_inboard_out_step t).rbld = t.rbld := rfl


theorem dr_tf_wp_step_itart (t : BuildState) : (dr_tf_wp_step t).itart = t.itart := rfl

theorem dr_tf_wp_step_i_tf_sup (t : BuildState) : (dr_tf_wp_step t).i_tf_sup = t.i_tf_sup := rfl

theorem dr_tf_wp_step_i_r_cp_top (t : BuildState) : (dr_tf_wp_step t).i_r_cp_top = t.i_r_cp_top := rfl

theorem dr_tf_wp_step_r_cp_top (t : BuildState) : (dr_tf_wp_step t).r_cp_top = t.r_cp_top := rfl

theorem dr_tf_wp_step_f_r_cp (t : BuildState) : (dr_tf_wp_step t).f_r_cp = t.f_r_cp := rfl

theorem dr_tf_wp_step_errors (t : BuildState) : (dr_tf_wp_step t).errors = t.errors := rfl

theorem dr_tf_wp_step_rminor (t : BuildState) : (dr_tf_wp_step t).rminor = t.rminor := rfl

theorem dr_tf_wp_step_tf_in_cs (t : BuildState) : (dr_tf_wp_step t).tf_in_cs = t.tf_in_cs := rfl

theorem dr_tf_wp_step_i_tf_bucking (t : BuildState) : (dr_tf_wp_step t).i_tf_bucking = t.i_tf_bucking := rfl

theorem dr_tf_wp_step_dr_bore (t : BuildState) : (dr_tf_wp_step t).dr_bore = t.dr_bore := rfl

theorem dr_tf_wp_step_dr_cs (t : BuildState) : (dr_tf_wp_step t).dr_cs = t.dr_cs := rfl

theorem dr_tf_wp_step_dr_cs_precomp (t : BuildState) : (dr_tf_wp_step t).dr_cs_precomp = t.dr_cs_precomp := rfl

theorem dr_tf_wp_step_dr_cs_tf_gap (t : BuildState) : (dr_tf_wp_step t).dr_cs_tf_gap = t.dr_cs_tf_gap := rfl

theorem dr_tf_wp_step_dr_tf_inboard (t : BuildState) : (dr_tf_wp_step t).dr_tf_inboard = t.dr_tf_inboard := rfl

theorem dr_tf_wp_step_dr_tf_shld_gap (t : BuildState) : (dr_tf_wp_step t).dr_tf_shld_gap = t.dr_tf_shld_gap := rfl

theorem dr_tf_wp_step_dr_shld_thermal_inboard (t : BuildState) : (dr_tf_wp_step t).dr_shld_thermal_inboard = t.dr_shld_thermal_inboard := rfl

theorem dr_tf_wp_step_dr_shld_vv_gap_inboard (t : BuildState) : (dr_tf_wp_step t).dr_shld_vv_gap_inboard = t.dr_shld_vv_gap_inboard := rfl

theorem dr_tf_wp_step_dr_vv_inboard (t : BuildState) : (dr_tf_wp_step t).dr_vv_inboard = t.dr_vv_inboard := rfl

theorem dr_tf_wp_step_dr_shld_inboard (t : BuildState) : (dr_tf_wp_step t).dr_shld_inboard = t.dr_shld_inboard := rfl

theorem dr_tf_wp_step_dr_shld_blkt_gap (t : BuildState) : (dr_tf_wp_step t).dr_shld_blkt_gap = t.dr_shld_blkt_gap := rfl

theorem dr_tf_wp_step_dr_blkt_inboard (t : BuildState) : (dr_tf_wp_step t).dr_blkt_inboard = t.dr_blkt_inboard := rfl

theorem dr_tf_wp_step_dr_fw_inboard (t : BuildState) : (dr_tf_wp_step t).dr_fw_inboard = t.dr_fw_inboard := rfl

theorem dr_tf_wp_step_dr_fw_plasma_gap_inboard (t : BuildState) : (dr_tf_wp_step t).dr_fw_plasma_gap_inboard = t.dr_fw_plasma_gap_inboard := rfl

theorem dr_tf_wp_step_r_tf_inboard_in (t : BuildState) : (dr_tf_wp_step t).r_tf_inboard_in = t.r_tf_inboard_in := rfl

theorem dr_tf_wp_step_r_tf_inboard_out (t : BuildState) : (dr_tf_wp_step t).r_tf_inboard_out = t.r_tf_inboard_out := rfl

theorem dr_tf_wp_step_rbld (t : BuildState) : (dr_tf_wp_step t).rbld = t.rbld := rfl


theorem cp_top_step_itart (t : BuildState) : (cp_top_step t).itart = t.itart := rfl

theorem cp_top_step_i_tf_sup (t : BuildState) : (cp_top_step t).i_tf_sup = t.i_tf_sup := rfl

theorem cp_top_step_i_r_cp_top (t : BuildState) : (cp_top_step t).i_r_cp_top = t.i_r_cp_top := rfl

theorem cp_top_step_rminor (t : BuildState) : (cp_top_step t).rminor = t.rminor := rfl

theorem cp_top_step_tf_in_cs (t : BuildState) : (cp_top_step t).tf_in_cs = t.tf_in_cs := rfl

theorem cp_top_step_i_tf_bucking (t : BuildState) : (cp_top_step t).i_tf_bucking = t.i_tf_bucking := rfl

theorem cp_top_step_dr_bore (t : BuildState) : (cp_top_step t).dr_bore = t.dr_bore := rfl

theorem cp_top_step_dr_cs (t : BuildState) : (cp_top_step t).dr_cs = t.dr_cs := rfl

theorem cp_top_step_dr_cs_precomp (t : BuildState) : (cp_top_step t).dr_cs_precomp = t.dr_cs_precomp := rfl

theorem cp_top_step_dr_cs_tf_gap (t : BuildState) : (cp_top_step t).dr_cs_tf_gap = t.dr_cs_tf_gap := rfl

theorem cp_top_step_dr_tf_inboard (t : BuildState) : (cp_top_step t).dr_tf_inboard = t.dr_tf_inboard := rfl

theorem cp_top_step_dr_tf_shld_gap (t : BuildState) : (cp_top_step t).dr_tf_shld_gap = t.dr_tf_shld_gap := rfl

theorem cp_top_step_dr_shld_thermal_inboard (t : BuildState) : (cp_top_step t).dr_shld_thermal_inboard = t.dr_shld_thermal_inboard := rfl

theorem cp_top_step_dr_shld_vv_gap_inboard (t : BuildState) : (cp_top_step t).dr_shld_vv_gap_inboard = t.dr_shld_vv_gap_inboard := rfl

theorem cp_top_step_dr_vv_inboard (t : BuildState) : (cp_top_step t).dr_vv_inboard = t.dr_vv_inboard := rfl

theorem cp_top_step_dr_shld_inboard (t : BuildState) : (cp_top_step t).dr_shld_inboard = t.dr_shld_inboard := rfl

theorem cp_top_step_dr_shld_blkt_gap (t : BuildState) : (cp_top_step t).dr_shld_blkt_gap = t.dr_shld_blkt_gap := rfl

theorem cp_top_step_dr_blkt_inboard (t : BuildState) : (cp_top_step t).dr_blkt_inboard = t.dr_blkt_inboard := rfl

theorem cp_top_step_dr_fw_inboard (t : BuildState) : (cp_top_step t).dr_fw_inboard = t.dr_fw_inboard := rfl

theorem cp_top_step_dr_fw_plasma_gap_inboard (t : BuildState) : (cp_top_step t).dr_fw_plasma_gap_inboard = t.dr_fw_plasma_gap_inboard := rfl

theorem cp_top_step_r_tf_inboard_in (t : BuildState) : (cp_top_step t).r_tf_inboard_in = t.r_tf_inboard_in := rfl

theorem cp_top_step_r_tf_inboard_out (t : BuildState) : (cp_top_step t).r_tf_inboard_out = t.r_tf_inboard_out := rfl

theorem cp_top_step_rbld (t : BuildState) : (cp_top_step t).rbld = t.rbld := rfl


theorem shield_step_itart (t : BuildState) : (shield_step t).itart = t.itart := rfl

theorem shield_step_i_tf_sup (t : BuildState) : (shield_step t).i_tf_sup = t.i_tf_sup := rfl

theorem shield_step_i_r_cp_top (t : BuildState) : (shield_step t).i_r_cp_top = t.i_r_cp_top := rfl

theorem shield_step_r_cp_top (t : BuildState) : (shield_step t).r_cp_top = t.r_cp_top := rfl

theorem shield_step_f_r_cp (t : BuildState) : (shield_step t).f_r_cp = t.f_r_cp := rfl

theorem shield_step_errors (t : BuildState) : (shield_step t).errors = t.errors := rfl

theorem shield_step_rminor (t : BuildState) : (shield_step t).rminor = t.rminor := rfl

theorem shield_step_tf_in_cs (t : BuildState) : (shield_step t).tf_in_cs = t.tf_in_cs := rfl

theorem shield_step_i_tf_bucking (t : BuildState) : (shield_step t).i_tf_bucking = t.i_tf_bucking := rfl

theorem shield_step_dr_bore (t : BuildState) : (shield_step t).dr_bore = t.dr_bore := rfl

theorem shield_step_dr_cs (t : BuildState) : (shield_step t).dr_cs = t.dr_cs := rfl

theorem shield_step_dr_cs_precomp (t : BuildState) : (shield_step t).dr_cs_precomp = t.dr_cs_precomp := rfl

theorem shield_step_dr_cs_tf_gap (t : BuildState) : (shield_step t).dr_cs_tf_gap = t.dr_cs_tf_gap := rfl

theorem shield_step_dr_tf_inboard (t : BuildState) : (shield_step t).dr_tf_inboard = t.dr_tf_inboard := rfl

theorem shield_step_dr_tf_shld_gap (t : BuildState) : (shield_step t).dr_tf_shld_gap = t.dr_tf_shld_gap := rfl

theorem shield_step_dr_shld_thermal_inboard (t : BuildState) : (shield_step t).dr_shld_thermal_inboard = t.dr_shld_thermal_inboard := rfl

theorem shield_step_dr_shld_vv_gap_inboard (t : BuildState) : (shield_step t).dr_shld_vv_gap_inboard = t.dr_shld_vv_gap_inboard := rfl

theorem shield_step_dr_vv_inboard (t : BuildState) : (shield_step t).dr_vv_inboard = t.dr_vv_inboard := rfl

theorem shield_step_dr_shld_inboard (t : BuildState) : (shield_step t).dr_shld_inboard = t.dr_shld_inboard := rfl

theorem shield_step_dr_shld_blkt_gap (t : BuildState) : (shield_step t).dr_shld_blkt_gap = t.dr_shld_blkt_gap := rfl

theorem shield_step_dr_blkt_inboard (t : BuildState) : (shield_step t).dr_blkt_inboard = t.dr_blkt_inboard := rfl

theorem shield_step_dr_fw_inboard (t : BuildState) : (shield_step t).dr_fw_inboard = t.dr_fw_inboard := rfl

theorem shield_step_dr_fw_plasma_gap_inboard (t : BuildState) : (shield_step t).dr_fw_plasma_gap_inboard = t.dr_fw_plasma_gap_inboard := rfl

theorem shield_step_r_tf_inboard_in (t : BuildState) : (shield_step t).r_tf_inboard_in = t.r_tf_inboard_in := rfl

theorem shield_step_r_tf_inboard_out (t : BuildState) : (shield_step t).r_tf_inboard_out = t.r_tf_inboard_out := rfl


theorem outboard_step_itart (t : BuildState) : (outboard_step t).itart = t.itart := rfl

theorem outboard_step_i_tf_sup (t : BuildState) : (outboard_step t).i_tf_sup = t.i_tf_sup := rfl

theorem outboard_step_i_r_cp_top (t : BuildState) : (outboard_step t).i_r_cp_top = t.i_r_cp_top := rfl

theorem outboard_step_r_cp_top (t : BuildState) : (outboard_step t).r_cp_top = t.r_cp_top := rfl

theorem outboard_step_f_r_cp (t : BuildState) : (outboard_step t).f_r_cp = t.f_r_cp := rfl

theorem outboard_step_errors (t : BuildState) : (outboard_step t).errors = t.errors := rfl

theorem outboard_step_rminor (t : BuildState) : (outboard_step t).rminor = t.rminor := rfl

theorem outboard_step_tf_in_cs (t : BuildState) : (outboard_step t).tf_in_cs = t.tf_in_cs := rfl

theorem outboard_step_i_tf_bucking (t : BuildState) : (outboard_step t).i_tf_bucking = t.i_tf_bucking := rfl

theorem outboard_step_dr_bore (t : BuildState) : (outboard_step t).dr_bore = t.dr_bore := rfl

theorem outboard_step_dr_cs (t : BuildState) : (outboard_step t).dr_cs = t.dr_cs := rfl

theorem outboard_step_dr_cs_precomp (t : BuildState) : (outboard_step t).dr_cs_precomp = t.dr_cs_precomp := rfl

theorem outboard_step_dr_cs_tf_gap (t : BuildState) : (outboard_step t).dr_cs_tf_gap = t.dr_cs_tf_gap := rfl

theorem outboard_step_dr_tf_inboard (t : BuildState) : (outboard_step t).dr_tf_inboard = t.dr_tf_inboard := rfl

theorem outboard_step_dr_tf_shld_gap (t : BuildState) : (outboard_step t).dr_tf_shld_gap = t.dr_tf_shld_gap := rfl

theorem outboard_step_dr_shld_thermal_inboard (t : BuildState) : (outboard_step t).dr_shld_thermal_inboard = t.dr_shld_thermal_inboard := rfl

theorem outboard_step_dr_shld_vv_gap_inboard (t : BuildState) : (outboard_step t).dr_shld_vv_gap_inboard = t.dr_shld_vv_gap_inboard := rfl

theorem outboard_step_dr_vv_inboard (t : BuildState) : (outboard_step t).dr_vv_inboard = t.dr_vv_inboard := rfl

theorem outboard_step_dr_shld_inboard (t : BuildState) : (outboard_step t).dr_shld_inboard = t.dr_shld_inboard := rfl

theorem outboard_step_dr_shld_blkt_gap (t : BuildState) : (outboard_step t).dr_shld_blkt_gap = t.dr_shld_blkt_gap := rfl

theorem outboard_step_dr_blkt_inboard (t : BuildState) : (outboard_step t).dr_blkt_inboard = t.dr_blkt_inboard := rfl

theorem outboard_step_dr_fw_inboard (t : BuildState) : (outboard_step t).dr_fw_inboard = t.dr_fw_inboard := rfl

theorem outboard_step_dr_fw_plasma_gap_inboard (t : BuildState) : (outboard_step t).dr_fw_plasma_gap_inboard = t.dr_fw_plasma_gap_inboard := rfl

theorem outboard_step_r_tf_inboard_in (t : BuildState) : (outboard_step t).r_tf_inboard_in = t.r_tf_inboard_in := rfl

theorem outboard_step_r_tf_inboard_out (t : BuildState) : (outboard_step t).r_tf_inboard_out = t.r_tf_inboard_out := rfl

theorem outboard_step_rbld (t : BuildState) : (outboard_step t).rbld = t.rbld := rfl


theorem ripple_feedback_step_itart (t : BuildState) : (ripple_feedback_step t).itart = t.itart := rfl

theorem ripple_feedback_step_i_tf_sup (t : BuildState) : (ripple_feedback_step t).i_tf_sup = t.i_tf_sup := rfl

theorem ripple_feedback_step_i_r_cp_top (t : BuildState) : (ripple_feedback_step t).i_r_cp_top = t.i_r_cp_top := rfl

theorem ripple_feedback_step_r_cp_top (t : BuildState) : (ripple_feedback_step t).r_cp_top = t.r_cp_top := rfl

theorem ripple_feedback_step_f_r_cp (t : BuildState) : (ripple_feedback_step t).f_r_cp = t.f_r_cp := rfl

theorem ripple_feedback_step_errors (t : BuildState) : (ripple_feedback_step t).errors = t.errors := rfl

theorem ripple_feedback_step_rminor (t : BuildState) : (ripple_feedback_step t).rminor = t.rminor := rfl

theorem ripple_feedback_step_tf_in_cs (t : BuildState) : (ripple_feedback_step t).tf_in_cs = t.tf_in_cs := rfl

theorem ripple_feedback_step_i_tf_bucking (t : BuildState) : (ripple_feedback_step t).i_tf_bucking = t.i_tf_bucking := rfl

theorem ripple_feedback_step_dr_bore (t : BuildState) : (ripple_feedback_step t).dr_bore = t.dr_bore := rfl

theorem ripple_feedback_step_dr_cs (t : BuildState) : (ripple_feedback_step t).dr_cs = t.dr_cs := rfl

theorem ripple_feedback_step_dr_cs_precomp (t : BuildState) : (ripple_feedback_step t).dr_cs_precomp = t.dr_cs_precomp := rfl

theorem ripple_feedback_step_dr_cs_tf_gap (t : BuildState) : (ripple_feedback_step t).dr_cs_tf_gap = t.dr_cs_tf_gap := rfl

theorem ripple_feedback_step_dr_tf_inboard (t : BuildState) : (ripple_feedback_step t).dr_tf_inboard = t.dr_tf_inboard := rfl

theorem ripple_feedback_step_dr_tf_shld_gap (t : BuildState) : (ripple_feedback_step t).dr_tf_shld_gap = t.dr_tf_shld_gap := rfl

theorem ripple_feedback_step_dr_shld_thermal_inboard (t : BuildState) : (ripple_feedback_step t).dr_shld_thermal_inboard = t.dr_shld_thermal_inboard := rfl

theorem ripple_feedback_step_dr_shld_vv_gap_inboard (t : BuildState) : (ripple_feedback_step t).dr_shld_vv_gap_inboard = t.dr_shld_vv_gap_inboard := rfl

theorem ripple_feedback_step_dr_vv_inboard (t : BuildState) : (ripple_feedback_step t).dr_vv_inboard = t.dr_vv_inboard := rfl

theorem ripple_feedback_step_dr_shld_inboard (t : BuildState) : (ripple_feedback_step t).dr_shld_inboard = t.dr_shld_inboard := rfl

theorem ripple_feedback_step_dr_shld_blkt_gap (t : BuildState) : (ripple_feedback_step t).dr_shld_blkt_gap = t.dr_shld_blkt_gap := rfl

theorem ripple_feedback_step_dr_blkt_inboard (t : BuildState) : (ripple_feedback_step t).dr_blkt_inboard = t.dr_blkt_inboard := rfl

theorem ripple_feedback_step_dr_fw_inboard (t : BuildState) : (ripple_feedback_step t).dr_fw_inboard = t.dr_fw_inboard := rfl

theorem ripple_feedback_step_dr_fw_plasma_gap_inboard (t : BuildState) : (ripple_feedback_step t).dr_fw_plasma_gap_inboard = t.dr_fw_plasma_gap_inboard := rfl

theorem ripple_feedback_step_r_tf_inboard_in (t : BuildState) : (ripple_feedback_step t).r_tf_inboard_in = t.r_tf_inboard_in := rfl

theorem ripple_feedback_step_r_tf_inboard_out (t : BuildState) : (ripple_feedback_step t).r_tf_inboard_out = t.r_tf_inboard_out := rfl

theorem ripple_feedback_step_rbld (t : BuildState) : (ripple_feedback_step t).rbld = t.rbld := rfl


theorem blanket_resolve_step_is_iter (t : BuildState) :
    dr_tf_wp_is_iter (blanket_resolve_step t) ↔ dr_tf_wp_is_iter t := Iff.rfl

theorem blnktth_step_is_iter (t : BuildState) :
    dr_tf_wp_is_iter (blnktth_step t) ↔ dr_tf_wp_is_iter t := Iff.rfl

theorem vgaptop_floor_step_is_iter (t : BuildState) :
    dr_tf_wp_is_iter (vgaptop_floor_step t) ↔ dr_tf_wp_is_iter t := Iff.rfl

theorem precomp_step_is_iter (t : BuildState) :
    dr_tf_wp_is_iter (precomp_step t) ↔ dr_tf_wp_is_iter t := Iff.rfl

theorem r_tf_inboard_in_step_is_iter (t : BuildState) :
    dr_tf_wp_is_iter (r_tf_inboard_in_step t) ↔ dr_tf_wp_is_iter t := Iff.rfl

theorem dr_tf_inboard_step_is_iter (t : BuildState) :
    dr_tf_wp_is_iter (dr_tf_inboard_step t) ↔ dr_tf_wp_is_iter t := Iff.rfl


theorem r_tf_inboard_in_step_n_tf (t : BuildState) : (r_tf_inboard_in_step t).n_tf = t.n_tf := rfl

theorem r_tf_inboard_in_step_dr_tf_wp (t : BuildState) : (r_tf_inboard_in_step t).dr_tf_wp = t.dr_tf_wp := rfl

theorem r_tf_inboard_in_step_casthi (t : BuildState) : (r_tf_inboard_in_step t).casthi = t.casthi := rfl

theorem r_tf_inboard_in_step_thkcas (t : BuildState) : (r_tf_inboard_in_step t).thkcas = t.thkcas := rfl

/-- Value written by the TF inner-radius step. -/
theorem r_tf_inboard_in_step_val (t : BuildState) :
    (r_tf_inboard_in_step t).r_tf_inboard_in =
      if t.tf_in_cs = 1 then t.dr_bore - t.dr_tf_inboard - t.dr_cs_tf_gap
      else t.dr_bore + t.dr_cs + t.dr_cs_precomp + t.dr_cs_tf_gap := rfl

/-- Value written by the TF inboard-thickness step. -/
theorem dr_tf_inboard_step_val (t : BuildState) :
    (dr_tf_inboard_step t).dr_tf_inboard =
      if dr_tf_wp_is_iter t then
        if t.i_tf_sup = 1 then
          (t.r_tf_inboard_in + t.dr_tf_wp + t.casthi + t.thkcas)
            / Real.cos (Real.pi / t.n_tf) - t.r_tf_inboard_in
        else t.dr_tf_wp + t.casthi + t.thkcas
      else t.dr_tf_inboard := rfl

/-- Value written by the TF plasma-facing-radius step. -/
theorem r_tf_inboard_out_step_val (t : BuildState) :
    (r_tf_inboard_out_step t).r_tf_inboard_out
      = t.r_tf_inboard_in + t.dr_tf_inboard := rfl

/-- Value written into rbld by the shield step. -/
theorem shield_step_rbld_val (t : BuildState) :
    (shield_step t).rbld =
      (if t.tf_in_cs = 1 then
        t.r_tf_inboard_out + t.dr_cs + t.dr_cs_tf_gap + t.dr_cs_precomp
          + t.dr_tf_shld_gap + t.dr_shld_thermal_inboard
          + t.dr_shld_vv_gap_inboard + t.dr_vv_inboard
      else
        t.r_tf_inboard_out + t.dr_tf_shld_gap + t.dr_shld_thermal_inboard
          + t.dr_shld_vv_gap_inboard + t.dr_vv_inboard)
      + t.dr_shld_inboard + t.dr_shld_blkt_gap + t.dr_blkt_inboard
      + t.dr_fw_inboard + t.dr_fw_plasma_gap_inboard + t.rminor := rfl

/-- The cumulative table radius reads no field written by the outboard
leg, ripple feedback, shield, centrepost, winding-pack, TF mid/out radius
or TF inner-radius steps. -/
theorem icr_ripple_feedback (t : BuildState) :
    inboard_cumulative_radius (ripple_feedback_step t)
      = inboard_cumulative_radius t := rfl

/-- See icr_ripple_feedback. -/
theorem icr_outboard (t : BuildState) :
    inboard_cumulative_radius (outboard_step t)
      = inboard_cumulative_radius t := rfl

/-- See icr_ripple_feedback. -/
theorem icr_shield (t : BuildState) :
    inboard_cumulative_radius (shield_step t)
      = inboard_cumulative_radius t := rfl

/-- See icr_ripple_feedback. -/
theorem icr_cp_top (t : BuildState) :
    inboard_cumulative_radius (cp_top_step t)
      = inboard_cumulative_radius t := rfl

/-- See icr_ripple_feedback. -/
theorem icr_dr_tf_wp (t : BuildState) :
    inboard_cumulative_radius (dr_tf_wp_step t)
      = inboard_cumulative_radius t := rfl

/-- See icr_ripple_feedback. -/
theorem icr_r_tf_inboard_out (t : BuildState) :
    inboard_cumulative_radius (r_tf_inboard_out_step t)
      = inboard_cumulative_radius t := rfl

/-- See icr_ripple_feedback. -/
theorem icr_r_tf_inboard_in (t : BuildState) :
    inboard_cumulative_radius (r_tf_inboard_in_step t)
      = inboard_cumulative_radius t := rfl

/-- The divgeom state write (rspo) leaves vgap_xpoint_divertor alone. -/
theorem divgeom_snd_vgap (s : BuildState) :
    ((divgeom s).2).vgap_xpoint_divertor = s.vgap_xpoint_divertor := by
  unfold divgeom; split_ifs <;> rfl

/-- The divgeom state write (rspo) leaves dh_tf_inner_bore alone. -/
theorem divgeom_snd_dh (s : BuildState) :
    ((divgeom s).2).dh_tf_inner_bore = s.dh_tf_inner_bore := by
  unfold divgeom; split_ifs <;> rfl

/-- The divgeom state write (rspo) leaves tfoffset alone. -/
theorem divgeom_snd_tfoffset (s : BuildState) :
    ((divgeom s).2).tfoffset = s.tfoffset := by
  unfold divgeom; split_ifs <;> rfl

/-- The vertical walk writes exactly dh_tf_inner_bore and tfoffset. -/
theorem walk_shape (s : BuildState) :
    ∃ a b, vertical_build_walk s
      = { s with dh_tf_inner_bore := a, tfoffset := b } := by
  unfold vertical_build_walk; split_ifs <;> exact ⟨_, _, rfl⟩

/-- The divertor height does not depend on dh_tf_inner_bore or
tfoffset. -/
theorem divgeom_fst_update (s : BuildState) (a b : ℝ) :
    (divgeom { s with dh_tf_inner_bore := a, tfoffset := b }).1
      = (divgeom s).1 := by
  simp only [divgeom]
  split_ifs <;> rfl

/-- The TF-coil vertical extent recorded by the walk equals the sum of
the layers between its two TF-coil traversals. -/
theorem walk_dh (s : BuildState) :
    (vertical_build_walk s).dh_tf_inner_bore
      = vb_tf_height s - 2.0 * s.dr_tf_inboard := by
  unfold vertical_build_walk vb_tf_height
  split_ifs <;> simp only [] <;> ring

/-- The TF/plasma vertical offset recorded by the walk is the mean of the
first and last running heights. -/
theorem walk_tfoffset (s : BuildState) :
    (vertical_build_walk s).tfoffset = (vb_start s + vb_end s) / 2.0 := by
  simp only [vertical_build_walk, vb_end, vb_start, vb_tf_height]
  split_ifs <;> simp only [] <;> ring

/-- C7: with itart = 1 divgeom returns exactly 1.75 * rminor as the
divertor height, skips the whole conventional algorithm, and writes no
state (in particular rspo is untouched, since the returned state is the
input state itself). -/
theorem divgeom_tart_short_circuit (s : BuildState) (h : s.itart = 1) :
    divgeom s = (1.75 * s.rminor, s) := by
  unfold divgeom; rw [if_pos h]

/-- C7 witness: concrete tight-aspect-ratio device with rminor = 2. -/
theorem divgeom_tart_short_circuit_witness :
    c7_state.itart = 1 ∧ divgeom c7_state = (1.75 * c7_state.rminor, c7_state) :=
  ⟨rfl, divgeom_tart_short_circuit c7_state rfl⟩

/-- C3: for the conventional coil shape the applicability flag follows
last-wins overwrite semantics over the fixed check order: edge ratio
outside 0.70..0.80 always reports 3; otherwise coil count outside 16..20
reports 2; otherwise x outside 0.737..2.95 reports 1; otherwise 0. -/
theorem ripple_flag_last_wins (s : BuildState) (ripmax r : ℝ)
    (hshape : s.i_tf_shape ≠ 2) :
    (ripple_amplitude s ripmax r).flag =
      if (s.rmajor + s.rminor) / r < 0.7 ∨ (s.rmajor + s.rminor) / r > 0.8 then 3
      else if s.n_tf < 16 ∨ s.n_tf > 20 then 2
      else if ripple_x s < 0.737 ∨ ripple_x s > 2.95 then 1
      else 0 := by
  unfold ripple_amplitude
  rw [if_neg hshape]

/-- C3 witness: the flag of a concrete conventional-coil evaluation. -/
theorem ripple_flag_last_wins_witness :
    c3_state.i_tf_shape ≠ 2 ∧
    (ripple_amplitude c3_state 1 1).flag =
      (if (c3_state.rmajor + c3_state.rminor) / 1 < 0.7 ∨
          (c3_state.rmajor + c3_state.rminor) / 1 > 0.8 then 3
       else if c3_state.n_tf < 16 ∨ c3_state.n_tf > 20 then 2
       else if ripple_x c3_state < 0.737 ∨ ripple_x c3_state > 2.95 then 1
       else 0) :=
  ⟨by decide, ripple_flag_last_wins c3_state 1 1 (by decide)⟩

/-- C6: in the conventional branch, when the inversion base 0.01*ripmax/c1
is at most 1e-6 it is clamped to 1e-6, and the minimum outboard radius is
the power-law inversion at the clamped base, with the fallback
(rmajor+rminor)*3 when the inverted denominator degenerates (the real
shadow of the float-infinity guard); the function returns normally in
both cases. -/
theorem ripple_base_clamp (s : BuildState) (ripmax r : ℝ)
    (hshape : s.i_tf_shape ≠ 2)
    (hbase : 0.01 * ripmax / ripple_c1 s ≤ 1e-6) :
    (ripple_amplitude s ripmax r).r_tf_outboard_midmin =
      if (1e-6 : ℝ) ^ (1.0 / (s.n_tf - ripple_c2 s)) = 0 then
        (s.rmajor + s.rminor) * 3
      else (s.rmajor + s.rminor) / (1e-6 : ℝ) ^ (1.0 / (s.n_tf - ripple_c2 s)) := by
  unfold ripple_amplitude
  rw [if_neg hshape]
  simp only [if_pos hbase]

/-- C6 witness: with an all-zero winding pack x vanishes, c1 = 0.875, and
a negative allowed ripple drives the base below the clamp. -/
theorem ripple_base_clamp_witness :
    c3_state.i_tf_shape ≠ 2 ∧
    0.01 * (-1 : ℝ) / ripple_c1 c3_state ≤ 1e-6 ∧
    (ripple_amplitude c3_state (-1) 1).r_tf_outboard_midmin =
      (if (1e-6 : ℝ) ^ (1.0 / (c3_state.n_tf - ripple_c2 c3_state)) = 0 then
        (c3_state.rmajor + c3_state.rminor) * 3
      else (c3_state.rmajor + c3_state.rminor)
          / (1e-6 : ℝ) ^ (1.0 / (c3_state.n_tf - ripple_c2 c3_state))) := by
  have hx : ripple_x c3_state = 0 := by
    simp [ripple_x, c3_state, base_state]
  have hb : 0.01 * (-1 : ℝ) / ripple_c1 c3_state ≤ 1e-6 := by
    rw [ripple_c1, hx]; norm_num
  exact ⟨by decide, hb, ripple_base_clamp c3_state (-1) 1 (by decide) hb⟩

/-- C9: with the picture-frame coil shape the computed ripple is strictly
decreasing in the outboard leg mid-radius, for a positive coil count and
positive rmajor + rminor. -/
theorem picture_frame_ripple_anti (s : BuildState) (ripmax r1 r2 : ℝ)
    (hshape : s.i_tf_shape = 2) (hn : 0 < s.n_tf)
    (hc : 0 < s.rmajor + s.rminor) (h1 : 0 < r1) (h12 : r1 < r2) :
    (ripple_amplitude s ripmax r2).ripple
      < (ripple_amplitude s ripmax r1).ripple := by
  unfold ripple_amplitude
  simp only [if_pos hshape]
  show 100.0 * ((s.rmajor + s.rminor) / r2) ^ s.n_tf
      < 100.0 * ((s.rmajor + s.rminor) / r1) ^ s.n_tf
  have hdiv : (s.rmajor + s.rminor) / r2 < (s.rmajor + s.rminor) / r1 :=
    div_lt_div_of_pos_left hc h1 h12
  have hnn : (0:ℝ) ≤ (s.rmajor + s.rminor) / r2 :=
    le_of_lt (div_pos hc (h1.trans h12))
  have hpow := Real.rpow_lt_rpow hnn hdiv hn
  exact mul_lt_mul_of_pos_left hpow (by norm_num)

/-- C9 witness: a two-coil picture frame with rmajor + rminor = 1 and
radii 1 < 2. -/
theorem picture_frame_ripple_anti_witness :
    c9_state.i_tf_shape = 2 ∧ 0 < c9_state.n_tf ∧
    0 < c9_state.rmajor + c9_state.rminor ∧ (0:ℝ) < 1 ∧ (1:ℝ) < 2 ∧
    (ripple_amplitude c9_state 1 2).ripple
      < (ripple_amplitude c9_state 1 1).ripple := by
  refine ⟨rfl, ?_, ?_, by norm_num, by norm_num, ?_⟩
  · show (0:ℝ) < 2; norm_num
  · show (0:ℝ) < 0.5 + 0.5; norm_num
  · exact picture_frame_ripple_anti c9_state 1 1 2 rfl
      (by show (0:ℝ) < 2; norm_num)
      (by show (0:ℝ) < 0.5 + 0.5; norm_num) (by norm_num) (by norm_num)

/-- C10: calculate_radial_build never decreases vgaptop, and with
i_single_null = 1 it overwrites vgaptop with the maximum of its prior
value and the mean of the inboard and outboard first-wall-to-plasma gaps,
so afterwards vgaptop is at least that mean. -/
theorem vgaptop_floor_monotone (s : BuildState) :
    s.vgaptop ≤ (calculate_radial_build s).vgaptop ∧
    (s.i_single_null = 1 →
      (calculate_radial_build s).vgaptop
          = max (0.5 * (s.dr_fw_plasma_gap_inboard + s.dr_fw_plasma_gap_outboard))
              s.vgaptop ∧
      0.5 * (s.dr_fw_plasma_gap_inboard + s.dr_fw_plasma_gap_outboard)
          ≤ (calculate_radial_build s).vgaptop) := by
  have hv : (calculate_radial_build s).vgaptop
      = if s.i_single_null = 1 then
          max (0.5 * (s.dr_fw_plasma_gap_inboard + s.dr_fw_plasma_gap_outboard))
            s.vgaptop
        else s.vgaptop := rfl
  constructor
  · rw [hv]; split_ifs
    · exact le_max_right _ _
    · exact le_refl _
  · intro h
    rw [hv, if_pos h]
    exact ⟨rfl, le_max_left _ _⟩

/-- C10 witness: a single-null device with unit gaps and a zero prior
scrape-off gap ends with vgaptop equal to the mean of the gaps. -/
theorem vgaptop_floor_monotone_witness :
    c10_state.i_single_null = 1 ∧
    (calculate_radial_build c10_state).vgaptop
        = max (0.5 * (c10_state.dr_fw_plasma_gap_inboard
            + c10_state.dr_fw_plasma_gap_outboard)) c10_state.vgaptop :=
  ⟨rfl, ((vgaptop_floor_monotone c10_state).2 rfl).1⟩

set_option maxHeartbeats 4000000 in
/-- C2: in the ripple feedback of calculate_radial_build, the outboard
mid-radius moves out to the ripple-limited minimum exactly when the first
call's minimum exceeds the initial estimate, in which case the vessel-to-
coil gap is recomputed by difference from the updated radius; otherwise
the gap is gapomin and the radius is unchanged; and the stored ripple and
applicability flag are those of the second ripple_amplitude call made
with the (possibly updated) radius. -/
theorem ripple_feedback_spec (s : BuildState) :
    (calculate_radial_build s).r_tf_outboard_mid =
      (if (first_ripple_call s).r_tf_outboard_midmin
            > (radial_build_pre_ripple s).r_tf_outboard_mid then
        (first_ripple_call s).r_tf_outboard_midmin
      else (radial_build_pre_ripple s).r_tf_outboard_mid) ∧
    (calculate_radial_build s).gapsto =
      (if (first_ripple_call s).r_tf_outboard_midmin
            > (radial_build_pre_ripple s).r_tf_outboard_mid then
        (first_ripple_call s).r_tf_outboard_midmin
          - 0.5 * (radial_build_pre_ripple s).dr_tf_outboard
          - (radial_build_pre_ripple s).dr_vv_outboard
          - (radial_build_pre_ripple s).rsldo
          - (radial_build_pre_ripple s).dr_shld_thermal_outboard
          - (radial_build_pre_ripple s).dr_tf_shld_gap
          - (radial_build_pre_ripple s).dr_shld_blkt_gap
      else (radial_build_pre_ripple s).gapomin) ∧
    (calculate_radial_build s).ripple =
      (ripple_amplitude (radial_build_pre_ripple s)
        (radial_build_pre_ripple s).ripmax
        (calculate_radial_build s).r_tf_outboard_mid).ripple ∧
    (calculate_radial_build s).ripflag =
      (ripple_amplitude (radial_build_pre_ripple s)
        (radial_build_pre_ripple s).ripmax
        (calculate_radial_build s).r_tf_outboard_mid).flag :=
  ⟨rfl, rfl, rfl, rfl⟩

/-- C8: after the divertor-geometry call of calculate_vertical_build, an
X-point-to-divertor gap strictly below 1e-5 is replaced by the computed
divertor height, and any other value is kept unchanged, for either value
of the output flag. -/
theorem vgap_xpoint_autofill (b : Bool) (s : BuildState) :
    (calculate_vertical_build b s).vgap_xpoint_divertor =
      if s.vgap_xpoint_divertor < 1e-5 then (divgeom s).1
      else s.vgap_xpoint_divertor := by
  cases b
  case false =>
    have h1 : (calculate_vertical_build false s).vgap_xpoint_divertor =
        if ((divgeom s).2).vgap_xpoint_divertor < 1e-5 then (divgeom s).1
        else ((divgeom s).2).vgap_xpoint_divertor := rfl
    rw [h1, divgeom_snd_vgap]
  case true =>
    obtain ⟨a, c, hw⟩ := walk_shape s
    have h1 : (calculate_vertical_build true s).vgap_xpoint_divertor =
        if ((divgeom (vertical_build_walk s)).2).vgap_xpoint_divertor < 1e-5
        then (divgeom (vertical_build_walk s)).1
        else ((divgeom (vertical_build_walk s)).2).vgap_xpoint_divertor := rfl
    rw [h1, divgeom_snd_vgap, hw, divgeom_fst_update]

/-- C4 (amended): when calculate_vertical_build is called with the output
flag set, it records the TF-coil vertical extent, dh_tf_inner_bore equal
to that extent minus twice the inboard TF thickness, and tfoffset equal
to the mean of the top and bottom running-height snapshots; when the
output flag is not set the whole walk is skipped and both fields keep
their prior values. -/
theorem vertical_build_outputs (s : BuildState) :
    (calculate_vertical_build true s).dh_tf_inner_bore
        = vb_tf_height s - 2.0 * s.dr_tf_inboard ∧
    (calculate_vertical_build true s).tfoffset
        = (vb_start s + vb_end s) / 2.0 ∧
    (calculate_vertical_build false s).dh_tf_inner_bore = s.dh_tf_inner_bore ∧
    (calculate_vertical_build false s).tfoffset = s.tfoffset := by
  have hdh_t : (calculate_vertical_build true s).dh_tf_inner_bore
      = ((divgeom (vertical_build_walk s)).2).dh_tf_inner_bore := rfl
  have hoff_t : (calculate_vertical_build true s).tfoffset
      = ((divgeom (vertical_build_walk s)).2).tfoffset := rfl
  have hdh_f : (calculate_vertical_build false s).dh_tf_inner_bore
      = ((divgeom s).2).dh_tf_inner_bore := rfl
  have hoff_f : (calculate_vertical_build false s).tfoffset
      = ((divgeom s).2).tfoffset := rfl
  refine ⟨?_, ?_, ?_, ?_⟩
  · rw [hdh_t, divgeom_snd_dh, walk_dh]
  · rw [hoff_t, divgeom_snd_tfoffset, walk_tfoffset]
  · rw [hdh_f, divgeom_snd_dh]
  · rw [hoff_f, divgeom_snd_tfoffset]

/-- C4 counterexample: on a concrete double-null device, a call without
the output flag leaves dh_tf_inner_bore and tfoffset at their prior
(zero) values, which differ from the walk-derived TF extent and offset
the claim says every invocation produces. -/
theorem vertical_build_outputs_counterexample :
    (calculate_vertical_build false c4_state).dh_tf_inner_bore
        ≠ vb_tf_height c4_state - 2.0 * c4_state.dr_tf_inboard ∧
    (calculate_vertical_build false c4_state).tfoffset
        ≠ (vb_start c4_state + vb_end c4_state) / 2.0 := by
  have hdh : (calculate_vertical_build false c4_state).dh_tf_inner_bore
      = ((divgeom c4_state).2).dh_tf_inner_bore := rfl
  have hoff : (calculate_vertical_build false c4_state).tfoffset
      = ((divgeom c4_state).2).tfoffset := rfl
  have h1 : vb_tf_height c4_state = 19 := by
    norm_num [vb_tf_height, c4_state, base_state]
  have h2 : vb_start c4_state = 11 := by
    norm_num [vb_start, c4_state, base_state]
  have h3 : vb_end c4_state = -10 := by
    unfold vb_end
    rw [h1, h2]
    norm_num [c4_state, base_state]
  constructor
  · rw [hdh, divgeom_snd_dh, h1]
    norm_num [c4_state, base_state]
  · rw [hoff, divgeom_snd_tfoffset, h2, h3]
    norm_num [c4_state, base_state]

/-- Behaviour of the centrepost top-radius block alone, for a tight
aspect-ratio resistive device with no prior fault 268: modes 0 and 1
enforce the 1.01 floor and report 268 exactly when their candidate was
below it; mode 2 stores the plain fraction with no fault 268. -/
theorem cp_top_step_spec (t : BuildState) (h1 : t.itart = 1)
    (h2 : t.i_tf_sup ≠ 1) (h3 : (268:ℕ) ∉ t.errors) :
    (t.i_r_cp_top = 0 →
      1.01 * t.r_tf_inboard_out ≤ (cp_top_step t).r_cp_top ∧
      ((268:ℕ) ∈ (cp_top_step t).errors ↔
        cp_top_candidate t < 1.01 * t.r_tf_inboard_out)) ∧
    (t.i_r_cp_top = 1 →
      1.01 * t.r_tf_inboard_out ≤ (cp_top_step t).r_cp_top ∧
      ((268:ℕ) ∈ (cp_top_step t).errors ↔
        t.r_cp_top < 1.01 * t.r_tf_inboard_out)) ∧
    (t.i_r_cp_top = 2 →
      (cp_top_step t).r_cp_top = t.f_r_cp * t.r_tf_inboard_out ∧
      (268:ℕ) ∉ (cp_top_step t).errors) := by
  refine ⟨fun hm => ?_, fun hm => ?_, fun hm => ?_⟩ <;>
    simp [cp_top_step, cp_top_candidate, h1, h2, hm]
  · constructor
    · split_ifs with hc
      · exact le_of_eq (mul_comm _ _)
      · exact not_lt.mp hc
    · split_ifs with hc
      · exact iff_of_true (by simp) hc
      · exact iff_of_false h3 hc
  · constructor
    · split_ifs with hc
      · exact le_of_eq (mul_comm _ _)
      · exact not_lt.mp hc
    · split_ifs with hc hd hd
      · exact iff_of_true (by simp) hc
      · exact iff_of_true (by simp) hc
      · exact iff_of_false (by simp [h3]) hc
      · exact iff_of_false h3 hc
  · split_ifs with hd
    · simp [h3]
    · exact h3

set_option maxHeartbeats 2000000 in
/-- C5 (amended): for a tight-aspect-ratio resistive device, the
top-radius minimum of 1.01 * r_tf_inboard_out is enforced, with the
clamped value stored and fault 268 reported, in modes i_r_cp_top = 0 and
1 only; mode 2 stores f_r_cp * r_tf_inboard_out without any floor or
fault 268. -/
theorem cp_top_floor_modes (s : BuildState) (h1 : s.itart = 1)
    (h2 : s.i_tf_sup ≠ 1) (h3 : (268:ℕ) ∉ s.errors) :
    (s.i_r_cp_top = 0 →
      1.01 * (calculate_radial_build s).r_tf_inboard_out
          ≤ (calculate_radial_build s).r_cp_top ∧
      ((268:ℕ) ∈ (calculate_radial_build s).errors ↔
        cp_top_candidate (radial_build_pre_cp s)
          < 1.01 * (radial_build_pre_cp s).r_tf_inboard_out)) ∧
    (s.i_r_cp_top = 1 →
      1.01 * (calculate_radial_build s).r_tf_inboard_out
          ≤ (calculate_radial_build s).r_cp_top ∧
      ((268:ℕ) ∈ (calculate_radial_build s).errors ↔
        s.r_cp_top < 1.01 * (radial_build_pre_cp s).r_tf_inboard_out)) ∧
    (s.i_r_cp_top = 2 →
      (calculate_radial_build s).r_cp_top
          = s.f_r_cp * (calculate_radial_build s).r_tf_inboard_out ∧
      (268:ℕ) ∉ (calculate_radial_build s).errors) := by
  have hti : (radial_build_pre_cp s).itart = s.itart := by
    simp only [radial_build_pre_cp, dr_tf_wp_step_itart, r_tf_inboard_out_step_itart, dr_tf_inboard_step_itart, r_tf_inboard_in_step_itart, precomp_step_itart, vgaptop_floor_step_itart, blnktth_step_itart, blanket_resolve_step_itart]
  have htsup : (radial_build_pre_cp s).i_tf_sup = s.i_tf_sup := by
    simp only [radial_build_pre_cp, dr_tf_wp_step_i_tf_sup, r_tf_inboard_out_step_i_tf_sup, dr_tf_inboard_step_i_tf_sup, r_tf_inboard_in_step_i_tf_sup, precomp_step_i_tf_sup, vgaptop_floor_step_i_tf_sup, blnktth_step_i_tf_sup, blanket_resolve_step_i_tf_sup]
  have htmode : (radial_build_pre_cp s).i_r_cp_top = s.i_r_cp_top := by
    simp only [radial_build_pre_cp, dr_tf_wp_step_i_r_cp_top, r_tf_inboard_out_step_i_r_cp_top, dr_tf_inboard_step_i_r_cp_top, r_tf_inboard_in_step_i_r_cp_top, precomp_step_i_r_cp_top, vgaptop_floor_step_i_r_cp_top, blnktth_step_i_r_cp_top, blanket_resolve_step_i_r_cp_top]
  have htrcp : (radial_build_pre_cp s).r_cp_top = s.r_cp_top := by
    simp only [radial_build_pre_cp, dr_tf_wp_step_r_cp_top, r_tf_inboard_out_step_r_cp_top, dr_tf_inboard_step_r_cp_top, r_tf_inboard_in_step_r_cp_top, precomp_step_r_cp_top, vgaptop_floor_step_r_cp_top, blnktth_step_r_cp_top, blanket_resolve_step_r_cp_top]
  have htf : (radial_build_pre_cp s).f_r_cp = s.f_r_cp := by
    simp only [radial_build_pre_cp, dr_tf_wp_step_f_r_cp, r_tf_inboard_out_step_f_r_cp, dr_tf_inboard_step_f_r_cp, r_tf_inboard_in_step_f_r_cp, precomp_step_f_r_cp, vgaptop_floor_step_f_r_cp, blnktth_step_f_r_cp, blanket_resolve_step_f_r_cp]
  have hterr : (radial_build_pre_cp s).errors = s.errors := by
    simp only [radial_build_pre_cp, dr_tf_wp_step_errors, r_tf_inboard_out_step_errors, dr_tf_inboard_step_errors, r_tf_inboard_in_step_errors, precomp_step_errors, vgaptop_floor_step_errors, blnktth_step_errors, blanket_resolve_step_errors]
  have ha1 : (calculate_radial_build s).r_tf_inboard_out
      = (radial_build_pre_ripple s).r_tf_inboard_out := rfl
  have ha2 : (radial_build_pre_ripple s).r_tf_inboard_out
      = (shield_step (cp_top_step (radial_build_pre_cp s))).r_tf_inboard_out :=
    rfl
  have ha3 : (shield_step (cp_top_step (radial_build_pre_cp s))).r_tf_inboard_out
      = (cp_top_step (radial_build_pre_cp s)).r_tf_inboard_out := rfl
  have ha4 : (cp_top_step (radial_build_pre_cp s)).r_tf_inboard_out
      = (radial_build_pre_cp s).r_tf_inboard_out := rfl
  have hout := (ha1.trans ha2).trans (ha3.trans ha4)
  have hb1 : (calculate_radial_build s).r_cp_top
      = (radial_build_pre_ripple s).r_cp_top := rfl
  have hb2 : (radial_build_pre_ripple s).r_cp_top
      = (shield_step (cp_top_step (radial_build_pre_cp s))).r_cp_top := rfl
  have hb3 : (shield_step (cp_top_step (radial_build_pre_cp s))).r_cp_top
      = (cp_top_step (radial_build_pre_cp s)).r_cp_top := rfl
  have hrcp := hb1.trans (hb2.trans hb3)
  have hc1 : (calculate_radial_build s).errors
      = (radial_build_pre_ripple s).errors := rfl
  have hc2 : (radial_build_pre_ripple s).errors
      = (shield_step (cp_top_step (radial_build_pre_cp s))).errors := rfl
  have hc3 : (shield_step (cp_top_step (radial_build_pre_cp s))).errors
      = (cp_top_step (radial_build_pre_cp s)).errors := rfl
  have herr := hc1.trans (hc2.trans hc3)
  have h3' : (268:ℕ) ∉ (radial_build_pre_cp s).errors := by
    rw [hterr]; exact h3
  have hspec := cp_top_step_spec (radial_build_pre_cp s)
    (hti.trans h1) (htsup.trans_ne h2) h3'
  rw [htmode, htrcp, htf] at hspec
  rw [hout, hrcp, herr]
  exact hspec

/-- C5 witness: a user-fixed top radius of zero (mode 1) on a device
whose outer midplane radius is 2 m. -/
theorem cp_top_floor_modes_witness :
    c5_witness_state.itart = 1 ∧ c5_witness_state.i_tf_sup ≠ 1 ∧
    (268:ℕ) ∉ c5_witness_state.errors ∧
    (c5_witness_state.i_r_cp_top = 1 →
      1.01 * (calculate_radial_build c5_witness_state).r_tf_inboard_out
          ≤ (calculate_radial_build c5_witness_state).r_cp_top ∧
      ((268:ℕ) ∈ (calculate_radial_build c5_witness_state).errors ↔
        c5_witness_state.r_cp_top
          < 1.01 * (radial_build_pre_cp c5_witness_state).r_tf_inboard_out)) :=
  ⟨rfl, by decide, by decide,
    (cp_top_floor_modes c5_witness_state rfl (by decide) (by decide)).2.1⟩

set_option maxHeartbeats 2000000 in
/-- C5 counterexample: in mode i_r_cp_top = 2 with f_r_cp = 0.5 the
stored top radius is half the outer midplane radius, strictly below the
claimed 1.01 floor, and no fault 268 is recorded. -/
theorem cp_top_mode2_counterexample :
    c5_state.itart = 1 ∧ c5_state.i_tf_sup ≠ 1 ∧ c5_state.i_r_cp_top = 2 ∧
    (calculate_radial_build c5_state).r_cp_top
        < 1.01 * (calculate_radial_build c5_state).r_tf_inboard_out ∧
    (268:ℕ) ∉ (calculate_radial_build c5_state).errors := by
  have hb1 : (calculate_radial_build c5_state).r_cp_top
      = (radial_build_pre_ripple c5_state).r_cp_top := rfl
  have hb2 : (radial_build_pre_ripple c5_state).r_cp_top
      = (shield_step (cp_top_step (radial_build_pre_cp c5_state))).r_cp_top :=
    rfl
  have hb3 :
      (shield_step (cp_top_step (radial_build_pre_cp c5_state))).r_cp_top
      = (cp_top_step (radial_build_pre_cp c5_state)).r_cp_top := rfl
  have hrcp := hb1.trans (hb2.trans hb3)
  have ha1 : (calculate_radial_build c5_state).r_tf_inboard_out
      = (radial_build_pre_ripple c5_state).r_tf_inboard_out := rfl
  have ha2 : (radial_build_pre_ripple c5_state).r_tf_inboard_out
      = (shield_step (cp_top_step
          (radial_build_pre_cp c5_state))).r_tf_inboard_out := rfl
  have ha3 : (shield_step (cp_top_step
          (radial_build_pre_cp c5_state))).r_tf_inboard_out
      = (cp_top_step (radial_build_pre_cp c5_state)).r_tf_inboard_out := rfl
  have ha4 : (cp_top_step (radial_build_pre_cp c5_state)).r_tf_inboard_out
      = (radial_build_pre_cp c5_state).r_tf_inboard_out := rfl
  have hout := (ha1.trans ha2).trans (ha3.trans ha4)
  have hc1 : (calculate_radial_build c5_state).errors
      = (radial_build_pre_ripple c5_state).errors := rfl
  have hc2 : (radial_build_pre_ripple c5_state).errors
      = (shield_step (cp_top_step (radial_build_pre_cp c5_state))).errors :=
    rfl
  have hc3 : (shield_step (cp_top_step (radial_build_pre_cp c5_state))).errors
      = (cp_top_step (radial_build_pre_cp c5_state)).errors := rfl
  have herr := hc1.trans (hc2.trans hc3)
  have hmode2 := (cp_top_step_spec (radial_build_pre_cp c5_state)
    rfl (by decide) (by decide)).2.2 rfl
  have hf : (radial_build_pre_cp c5_state).f_r_cp = 0.5 := rfl
  have ho : (radial_build_pre_cp c5_state).r_tf_inboard_out = 2 := by
    norm_num [radial_build_pre_cp, dr_tf_wp_step, r_tf_inboard_out_step,
      dr_tf_inboard_step, r_tf_inboard_in_step, precomp_step,
      vgaptop_floor_step, blnktth_step, blanket_resolve_step,
      dr_tf_wp_is_iter, c5_state, base_state]
  refine ⟨rfl, by decide, rfl, ?_, ?_⟩
  · rw [hrcp, hout, hmode2.1, hf, ho]
    norm_num
  · rw [herr]
    exact hmode2.2

/-- C1 (amended): the cumulative radius of the radial build output table
after summing every inboard layer equals rbld - rminor, where rbld is the
plasma-centre radius derived by calculate_radial_build by stacking the same
layers, provided either tf_in_cs = 0, or tf_in_cs = 1 with dr_tf_wp not an
active iteration variable (when it is, calculate_radial_build recomputes
dr_tf_inboard after having already fixed r_tf_inboard_in from the stale
value, so the table and rbld disagree).  The sum equals rmajor - rminor
only when the configured thicknesses happen to satisfy rbld = rmajor,
which the code does not enforce (the source only notes in a comment that
rbld should equal rmajor). -/
theorem radial_stack_consistency (s : BuildState)
    (h : s.tf_in_cs = 0 ∨ (s.tf_in_cs = 1 ∧ ¬ dr_tf_wp_is_iter s)) :
    inboard_cumulative_radius (calculate_radial_build s)
      = (calculate_radial_build s).rbld - (calculate_radial_build s).rminor := by
  have e1 : calculate_radial_build s
      = ripple_feedback_step (radial_build_pre_ripple s) := rfl
  have e2 : radial_build_pre_ripple s
      = outboard_step (shield_step (cp_top_step (radial_build_pre_cp s))) :=
    rfl
  have e3 : radial_build_pre_cp s
      = dr_tf_wp_step (r_tf_inboard_out_step (dr_tf_inboard_step
          (r_tf_inboard_in_step (precomp_step (vgaptop_floor_step
            (blnktth_step (blanket_resolve_step s))))))) := rfl
  rw [e1, e2, e3]
  rw [icr_ripple_feedback, icr_outboard, icr_shield, icr_cp_top,
    icr_dr_tf_wp, icr_r_tf_inboard_out]
  rw [ripple_feedback_step_rminor, outboard_step_rminor, shield_step_rminor,
    cp_top_step_rminor, dr_tf_wp_step_rminor, r_tf_inboard_out_step_rminor,
    dr_tf_inboard_step_rminor, r_tf_inboard_in_step_rminor,
    precomp_step_rminor, vgaptop_floor_step_rminor, blnktth_step_rminor,
    blanket_resolve_step_rminor]
  rw [ripple_feedback_step_rbld, outboard_step_rbld, shield_step_rbld_val]
  simp only [cp_top_step_tf_in_cs, cp_top_step_r_tf_inboard_out,
    cp_top_step_dr_cs, cp_top_step_dr_cs_tf_gap, cp_top_step_dr_cs_precomp,
    cp_top_step_dr_tf_shld_gap, cp_top_step_dr_shld_thermal_inboard,
    cp_top_step_dr_shld_vv_gap_inboard, cp_top_step_dr_vv_inboard,
    cp_top_step_dr_shld_inboard, cp_top_step_dr_shld_blkt_gap,
    cp_top_step_dr_blkt_inboard, cp_top_step_dr_fw_inboard,
    cp_top_step_dr_fw_plasma_gap_inboard]
  simp only [dr_tf_wp_step_tf_in_cs, dr_tf_wp_step_r_tf_inboard_out,
    dr_tf_wp_step_dr_cs, dr_tf_wp_step_dr_cs_tf_gap,
    dr_tf_wp_step_dr_cs_precomp, dr_tf_wp_step_dr_tf_shld_gap,
    dr_tf_wp_step_dr_shld_thermal_inboard,
    dr_tf_wp_step_dr_shld_vv_gap_inboard, dr_tf_wp_step_dr_vv_inboard,
    dr_tf_wp_step_dr_shld_inboard, dr_tf_wp_step_dr_shld_blkt_gap,
    dr_tf_wp_step_dr_blkt_inboard, dr_tf_wp_step_dr_fw_inboard,
    dr_tf_wp_step_dr_fw_plasma_gap_inboard]
  simp only [r_tf_inboard_out_step_val, r_tf_inboard_out_step_tf_in_cs,
    r_tf_inboard_out_step_dr_cs, r_tf_inboard_out_step_dr_cs_tf_gap,
    r_tf_inboard_out_step_dr_cs_precomp, r_tf_inboard_out_step_dr_tf_shld_gap,
    r_tf_inboard_out_step_dr_shld_thermal_inboard,
    r_tf_inboard_out_step_dr_shld_vv_gap_inboard,
    r_tf_inboard_out_step_dr_vv_inboard, r_tf_inboard_out_step_dr_shld_inboard,
    r_tf_inboard_out_step_dr_shld_blkt_gap,
    r_tf_inboard_out_step_dr_blkt_inboard, r_tf_inboard_out_step_dr_fw_inboard,
    r_tf_inboard_out_step_dr_fw_plasma_gap_inboard]
  simp only [inboard_cumulative_radius]
  simp only [dr_tf_inboard_step_val, dr_tf_inboard_step_is_iter,
    dr_tf_inboard_step_tf_in_cs, dr_tf_inboard_step_i_tf_bucking,
    dr_tf_inboard_step_dr_bore, dr_tf_inboard_step_dr_cs,
    dr_tf_inboard_step_dr_cs_precomp, dr_tf_inboard_step_dr_cs_tf_gap,
    dr_tf_inboard_step_dr_tf_shld_gap,
    dr_tf_inboard_step_dr_shld_thermal_inboard,
    dr_tf_inboard_step_dr_shld_vv_gap_inboard,
    dr_tf_inboard_step_dr_vv_inboard, dr_tf_inboard_step_dr_shld_inboard,
    dr_tf_inboard_step_dr_shld_blkt_gap, dr_tf_inboard_step_dr_blkt_inboard,
    dr_tf_inboard_step_dr_fw_inboard,
    dr_tf_inboard_step_dr_fw_plasma_gap_inboard,
    dr_tf_inboard_step_r_tf_inboard_in, dr_tf_inboard_step_i_tf_sup]
  simp only [r_tf_inboard_in_step_val, r_tf_inboard_in_step_is_iter,
    r_tf_inboard_in_step_tf_in_cs, r_tf_inboard_in_step_i_tf_bucking,
    r_tf_inboard_in_step_dr_bore, r_tf_inboard_in_step_dr_cs,
    r_tf_inboard_in_step_dr_cs_precomp, r_tf_inboard_in_step_dr_cs_tf_gap,
    r_tf_inboard_in_step_dr_tf_shld_gap,
    r_tf_inboard_in_step_dr_shld_thermal_inboard,
    r_tf_inboard_in_step_dr_shld_vv_gap_inboard,
    r_tf_inboard_in_step_dr_vv_inboard, r_tf_inboard_in_step_dr_shld_inboard,
    r_tf_inboard_in_step_dr_shld_blkt_gap,
    r_tf_inboard_in_step_dr_blkt_inboard, r_tf_inboard_in_step_dr_fw_inboard,
    r_tf_inboard_in_step_dr_fw_plasma_gap_inboard,
    r_tf_inboard_in_step_dr_tf_inboard, r_tf_inboard_in_step_i_tf_sup,
    r_tf_inboard_in_step_n_tf, r_tf_inboard_in_step_dr_tf_wp,
    r_tf_inboard_in_step_casthi, r_tf_inboard_in_step_thkcas]
  simp only [cp_top_step_rminor, dr_tf_wp_step_rminor,
    r_tf_inboard_out_step_rminor, dr_tf_inboard_step_rminor,
    r_tf_inboard_in_step_rminor]
  have hxr : (precomp_step (vgaptop_floor_step (blnktth_step
      (blanket_resolve_step s)))).rminor = s.rminor := by
    simp only [precomp_step_rminor, vgaptop_floor_step_rminor,
      blnktth_step_rminor, blanket_resolve_step_rminor]
  rw [hxr]
  have hx : (precomp_step (vgaptop_floor_step (blnktth_step
      (blanket_resolve_step s)))).tf_in_cs = s.tf_in_cs := by
    simp only [precomp_step_tf_in_cs, vgaptop_floor_step_tf_in_cs,
      blnktth_step_tf_in_cs, blanket_resolve_step_tf_in_cs]
  have hxi : dr_tf_wp_is_iter (precomp_step (vgaptop_floor_step (blnktth_step
      (blanket_resolve_step s)))) ↔ dr_tf_wp_is_iter s := by
    simp only [precomp_step_is_iter, vgaptop_floor_step_is_iter,
      blnktth_step_is_iter, blanket_resolve_step_is_iter]
  rw [hx]
  simp only [hxi]
  rcases h with h0 | ⟨h0, h1⟩
  · simp only [h0]
    norm_num
  · simp only [h0, h1]
    norm_num
    split_ifs
    · ring
    · ring
    · exfalso; omega

/-- C1 witness: the consistency identity on the concrete all-ones layer
set. -/
theorem radial_stack_consistency_witness :
    (c1_state.tf_in_cs = 0 ∨ (c1_state.tf_in_cs = 1 ∧ ¬ dr_tf_wp_is_iter c1_state)) ∧
    inboard_cumulative_radius (calculate_radial_build c1_state)
      = (calculate_radial_build c1_state).rbld
        - (calculate_radial_build c1_state).rminor :=
  ⟨Or.inl rfl, radial_stack_consistency c1_state (Or.inl rfl)⟩

/-- C1 counterexample: a parameter set whose inboard layer thicknesses
are all positive (one metre each, including the derived precompression
thickness) sums to a cumulative radius of 14 m, while rmajor - rminor is
99 m; equivalently rbld is 15 m, not the configured rmajor of 100 m. -/
theorem radial_stack_counterexample :
    (0 < c1_state.dr_bore ∧ 0 < c1_state.dr_cs ∧
     0 < (calculate_radial_build c1_state).dr_cs_precomp ∧
     0 < c1_state.dr_cs_tf_gap ∧ 0 < c1_state.dr_tf_inboard ∧
     0 < c1_state.dr_tf_shld_gap ∧ 0 < c1_state.dr_shld_thermal_inboard ∧
     0 < c1_state.dr_shld_vv_gap_inboard ∧ 0 < c1_state.dr_vv_inboard ∧
     0 < c1_state.dr_shld_inboard ∧ 0 < c1_state.dr_shld_blkt_gap ∧
     0 < c1_state.dr_blkt_inboard ∧ 0 < c1_state.dr_fw_inboard ∧
     0 < c1_state.dr_fw_plasma_gap_inboard) ∧
    inboard_cumulative_radius (calculate_radial_build c1_state)
        ≠ c1_state.rmajor - c1_state.rminor ∧
    (calculate_radial_build c1_state).rbld ≠ c1_state.rmajor := by
  have hpre : (calculate_radial_build c1_state).dr_cs_precomp
      = 6 * Real.pi / (2.0 * Real.pi * 1 * 1 * (1 + 1 + 1)) := rfl
  have hpi : 6 * Real.pi / (2.0 * Real.pi * 1 * 1 * (1 + 1 + 1)) = 1 := by
    rw [div_eq_one_iff_eq (by positivity)]
    ring
  have hpre1 : (calculate_radial_build c1_state).dr_cs_precomp = 1 :=
    hpre.trans hpi
  refine ⟨⟨?_, ?_, ?_, ?_, ?_, ?_, ?_, ?_, ?_, ?_, ?_, ?_, ?_, ?_⟩, ?_, ?_⟩
  · norm_num [c1_state, base_state]
  · norm_num [c1_state, base_state]
  · rw [hpre1]; norm_num
  · norm_num [c1_state, base_state]
  · norm_num [c1_state, base_state]
  · norm_num [c1_state, base_state]
  · norm_num [c1_state, base_state]
  · norm_num [c1_state, base_state]
  · norm_num [c1_state, base_state]
  · norm_num [c1_state, base_state]
  · norm_num [c1_state, base_state]
  · norm_num [c1_state, base_state]
  · norm_num [c1_state, base_state]
  · norm_num [c1_state, base_state]
  · have hicr : inboard_cumulative_radius (calculate_radial_build c1_state)
        = 13 + 6 * Real.pi / (2.0 * Real.pi * 1 * 1 * (1 + 1 + 1)) := by
      simp only [inboard_cumulative_radius, calculate_radial_build,
        radial_build_pre_ripple, radial_build_pre_cp, ripple_feedback_step,
        outboard_step, shield_step, cp_top_step, dr_tf_wp_step,
        r_tf_inboard_out_step, dr_tf_inboard_step, r_tf_inboard_in_step,
        precomp_step, vgaptop_floor_step, blnktth_step, blanket_resolve_step,
        dr_tf_wp_is_iter, c1_state, base_state]
      norm_num
      ring
    rw [hicr, hpi]
    norm_num [c1_state, base_state]
  · have hrbld : (calculate_radial_build c1_state).rbld
        = 14 + 6 * Real.pi / (2.0 * Real.pi * 1 * 1 * (1 + 1 + 1)) := by
      simp only [calculate_radial_build,
        radial_build_pre_ripple, radial_build_pre_cp, ripple_feedback_step,
        outboard_step, shield_step, cp_top_step, dr_tf_wp_step,
        r_tf_inboard_out_step, dr_tf_inboard_step, r_tf_inboard_in_step,
        precomp_step, vgaptop_floor_step, blnktth_step, blanket_resolve_step,
        dr_tf_wp_is_iter, c1_state, base_state]
      norm_num
      ring
    rw [hrbld, hpi]
    norm_num [c1_state, base_state]

end
